import Mathlib

/-!
# Azure IoT Hub health service (`main/azureiothub.c`)

A shallow embedding of the connection-string handling and of the connection
state machine of `azureiothub.c`.

* C strings and byte buffers are lists of bytes (`Str`); a `char *` that may be
  `NULL` is an `Option Str`.
* The service state `srv_state` is passed explicitly.  Every call that leaves
  the file (Jacdac event, MQTT client, NVS store, string response) is recorded,
  in program order, in a list of `Effect`s returned next to the new state.
* The outcomes of the external calls are read from an `Env`.  `JD_ASSERT`, `CHK`
  and `ESP_ERROR_CHECK` abort the firmware when they fail; a call that aborts is
  `Outcome.aborted log`, with the effects issued up to the abort.
* A `char *` value is the C string it points to: it ends at its first zero
  byte (`c_str`).  A buffer passed with its length is the whole byte list.
* `LOG`/`ESP_LOG*` output and `jd_free` are not part of the model.
-/

namespace AzureIotHub

/-! ## Bytes and strings -/

/-- One byte of a buffer or of a C string. -/
abbrev Byte := Fin 256

/-- A byte string: a C string without its terminator, or a buffer with its length. -/
abbrev Str := List Byte

/-- The bytes of a string literal of the source. -/
def str (s : String) : Str := s.toList.map (fun c => Fin.ofNat c.toNat)

/-- Source line 8: the expiry constant of the SAS token. -/
def EXPIRES : Str := str "9000000000"

/-- The C string held by a buffer: the bytes before the first zero byte. This is what
every reader of a `char *` sees (`strlen`, `while (*src)`). -/
def c_str (buf : Str) : Str := buf.takeWhile (fun b => decide (b ≠ (0 : Byte)))

/-! ## Helpers declared in `jdesp.h` (their bodies are not in `azureiothub.c`) -/

/-- Modelled from the spec: `jd_concat_many` is declared in `jdesp.h` and its body is
missing. It joins the strings of a `NULL`-terminated array: the array is the list, the
terminator is the first `none`, and nothing after the terminator is read. -/
def jd_concat_many : List (Option Str) → Str
  | [] => []
  | none :: _ => []
  | some p :: rest => p ++ jd_concat_many rest

/-- Modelled from the spec: `jd_concat2` is declared in `jdesp.h` and its body is
missing. It is the concatenation of its two arguments. -/
def jd_concat2 (a b : Str) : Str := a ++ b

/-- Modelled from the spec: the remainder of the buffer after the first (leftmost)
occurrence of the literal pattern, the scan of section 4.1 of the spec. -/
def find_after (pat : Str) : Str → Option Str
  | [] => if pat <+: [] then some [] else none
  | c :: cs =>
    if pat <+: c :: cs then some ((c :: cs).drop pat.length) else find_after pat cs

/-- Modelled from the spec: `extract_property` is declared in `jdesp.h` and its body is
missing. Section 4.1: scan the buffer for the literal pattern `<key>=`; the value begins
right after the first match and extends to the next `;` or to the end of the buffer;
"not found" (`NULL`) when the pattern does not occur. The copy of the value is handed
back as a `char *`, which every caller reads as a C string: the result is the value up
to its first zero byte. -/
def extract_property (property_bag : Str) (key : Str) : Option Str :=
  (find_after (key ++ str "=") property_bag).map
    (fun rest => c_str (List.takeWhile (fun b => decide (b ≠ (59 : Byte))) rest))

/-- Modelled from the spec: the unreserved bytes of section 4.2, that is letters, digits
and the marks `-`, `_`, `.`, `~`. -/
def is_unreserved (b : Byte) : Bool :=
  (48 ≤ b.val && b.val ≤ 57) || (65 ≤ b.val && b.val ≤ 90) || (97 ≤ b.val && b.val ≤ 122) ||
    b.val == 45 || b.val == 95 || b.val == 46 || b.val == 126

/-- Upper-case hexadecimal digit of a value below 16. -/
def hex_digit (n : Nat) : Byte :=
  if n < 10 then Fin.ofNat (48 + n) else Fin.ofNat (55 + n)

/-- Modelled from the spec: `jd_urlencode` is declared in `jdesp.h` and its body is
missing. Section 4.2: every byte outside the unreserved set becomes `%XX` with
upper-case hexadecimal digits, every unreserved byte is copied. -/
def jd_urlencode : Str → Str
  | [] => []
  | b :: rest =>
    if is_unreserved b then b :: jd_urlencode rest
    else (37 : Byte) :: hex_digit (b.val / 16) :: hex_digit (b.val % 16) :: jd_urlencode rest

/-! ## Connection status values -/

/-- Modelled from the spec: the four status codes come from `azureiothubhealth.h`, which is
missing; they are four distinct 16-bit values. -/
def JD_AZURE_IOT_HUB_HEALTH_CONNECTION_STATUS_CONNECTED : Nat := 1

/-- Modelled from the spec: status code `Disconnected` (see `..._CONNECTED`). -/
def JD_AZURE_IOT_HUB_HEALTH_CONNECTION_STATUS_DISCONNECTED : Nat := 2

/-- Modelled from the spec: status code `Connecting` (see `..._CONNECTED`). -/
def JD_AZURE_IOT_HUB_HEALTH_CONNECTION_STATUS_CONNECTING : Nat := 3

/-- Modelled from the spec: status code `Disconnecting` (see `..._CONNECTED`). -/
def JD_AZURE_IOT_HUB_HEALTH_CONNECTION_STATUS_DISCONNECTING : Nat := 4

/-! ## State, transport configuration, effects, environment -/

/-- Source lines 15-25: `struct srv_state`. A `NULL` pointer is `none`. -/
structure srv_state where
  conn_status : Nat
  hub_name : Option Str
  device_id : Option Str
  sas_token : Option Str
  nvs_handle : Nat
  client : Option Nat
  deriving DecidableEq, Repr

/-- Source lines 132-142: the fields of `esp_mqtt_client_config_t` that depend on the
state (`crt_bundle_attach` and `event_handle` are fixed function pointers). -/
structure esp_mqtt_client_config_t where
  uri : Str
  client_id : Option Str
  username : Str
  password : Option Str
  deriving DecidableEq, Repr

/-- The calls that leave the file, with their arguments. -/
inductive Effect where
  /-- The status-change event `jd_send_event_ext(state, ..._EV_CONNECTION_STATUS_CHANGE, &conn_status, 2)`. -/
  | jd_send_event_ext (payload : Nat)
  | esp_mqtt_client_init (cfg : esp_mqtt_client_config_t)
  | esp_event_handler_instance_register
  | esp_mqtt_client_start (client : Nat)
  | esp_mqtt_set_config (client : Nat) (cfg : esp_mqtt_client_config_t)
  | esp_mqtt_client_reconnect (client : Nat)
  | esp_mqtt_client_disconnect (client : Nat)
  | nvs_erase_key (handle : Nat) (key : Str)
  | nvs_set_blob (handle : Nat) (key : Str) (blob : Str)
  | nvs_commit (handle : Nat)
  | nvs_open (name : Str)
  | nvs_get_blob_a (handle : Nat) (key : Str)
  | jd_respond_string (s : Option Str)
  | service_handle_register_final (service_command : Nat)
  deriving DecidableEq, Repr

/-- The outcomes of the external calls. `hmac_sha256_b64 key msg` is the base64 of the
HMAC-SHA256 of `msg` under the base64-decoded `key`, or `none` when the key does not
decode. A `Bool` is `true` when the call returns `ESP_OK`. `nvs_open` is the handle
written by a successful `nvs_open`, `nvs_get_blob_a` the stored blob if there is one. -/
structure Env where
  hmac_sha256_b64 : Str → Str → Option Str
  nvs_open : Option Nat
  nvs_get_blob_a : Option Str
  esp_mqtt_client_init : Option Nat
  esp_event_handler_instance_register : Bool
  esp_mqtt_set_config : Bool
  esp_mqtt_client_reconnect : Bool
  nvs_erase_key : Bool
  nvs_set_blob : Bool
  nvs_commit : Bool

/-- Modelled from the spec: `jd_hmac_b64` is declared in `jdesp.h` and its body is
missing. Section 4.3, step 2: the signature is computed over the joined parts of the
`NULL`-terminated array, with the base64 key. The result is a `char *`, read as a C
string. -/
def jd_hmac_b64 (env : Env) (key : Str) (parts : List (Option Str)) : Option Str :=
  (env.hmac_sha256_b64 key (jd_concat_many parts)).map c_str

/-- The outcome of a call that can abort: it returns `value`, or the firmware aborts in
`JD_ASSERT`, `CHK` or `ESP_ERROR_CHECK` after having issued the effects `log` (the
failing call is the last of them). -/
inductive Outcome (α : Type) where
  | returned (value : α)
  | aborted (log : List Effect)
  deriving DecidableEq, Repr

/-- The value of a call that returned. -/
def Outcome.result {α : Type} : Outcome α → Option α
  | .returned value => some value
  | .aborted _ => none

/-! ## The functions of `azureiothub.c` -/

/-- Source lines 33-40. -/
def set_status (state : srv_state) (status : Nat) : srv_state × List Effect :=
  if state.conn_status = status then (state, [])
  else ({ state with conn_status := status }, [Effect.jd_send_event_ext status])

/-- Source lines 42-49. -/
def clear_conn_string (state : srv_state) : srv_state :=
  { state with hub_name := none, device_id := none, sas_token := none }

/-- The event kinds of `esp_mqtt_event_id_t` named in lines 52-96; `other` is any id that
reaches the `default` label. -/
inductive esp_mqtt_event_id_t where
  | MQTT_EVENT_CONNECTED
  | MQTT_EVENT_DISCONNECTED
  | MQTT_EVENT_BEFORE_CONNECT
  | MQTT_EVENT_SUBSCRIBED
  | MQTT_EVENT_UNSUBSCRIBED
  | MQTT_EVENT_PUBLISHED
  | MQTT_EVENT_DATA
  | MQTT_EVENT_DELETED
  | MQTT_EVENT_ERROR
  | other (id : Int)
  deriving DecidableEq, Repr

/-- Source lines 51-99. The result `ESP_OK` is constant and the other fields of the event
only feed the log, so the function is given by the event id. -/
def mqtt_event_handler_cb (state : srv_state) (event_id : esp_mqtt_event_id_t) :
    srv_state × List Effect :=
  match event_id with
  | .MQTT_EVENT_CONNECTED =>
    set_status state JD_AZURE_IOT_HUB_HEALTH_CONNECTION_STATUS_CONNECTED
  | .MQTT_EVENT_DISCONNECTED =>
    set_status state JD_AZURE_IOT_HUB_HEALTH_CONNECTION_STATUS_DISCONNECTED
  | .MQTT_EVENT_BEFORE_CONNECT => (state, [])
  | .MQTT_EVENT_SUBSCRIBED => (state, [])
  | .MQTT_EVENT_UNSUBSCRIBED => (state, [])
  | .MQTT_EVENT_PUBLISHED => (state, [])
  | .MQTT_EVENT_DATA => (state, [])
  | .MQTT_EVENT_DELETED => (state, [])
  | .MQTT_EVENT_ERROR => (state, [])
  | .other _ => (state, [])

/-- Source lines 111-117. -/
def azureiothub_disconnect (state : srv_state) : srv_state × List Effect :=
  match state.client with
  | none => (state, [])
  | some c =>
    let r := set_status state JD_AZURE_IOT_HUB_HEALTH_CONNECTION_STATUS_DISCONNECTING
    (r.1, r.2 ++ [Effect.esp_mqtt_client_disconnect c])

/-- Source lines 125-142: the configuration handed to the MQTT client. -/
def mqtt_cfg (state : srv_state) (hub_name : Str) : esp_mqtt_client_config_t :=
  { uri := jd_concat2 (str "mqtts://") hub_name
    client_id := state.device_id
    username := jd_concat_many
      [some hub_name, some (str "/"), state.device_id, some (str "/?api-version=2018-06-30"),
        none]
    password := state.sas_token }

/-- Source lines 119-159. The call aborts when `esp_mqtt_client_init` returns `NULL`
(`JD_ASSERT`, line 146) and when the registration, `esp_mqtt_set_config` or
`esp_mqtt_client_reconnect` does not return `ESP_OK` (`CHK`, lines 147-152). -/
def azureiothub_reconnect (env : Env) (state : srv_state) :
    Outcome (srv_state × List Effect) :=
  match state.hub_name with
  | none => .returned (azureiothub_disconnect state)
  | some hub_name =>
    let cfg := mqtt_cfg state hub_name
    match state.client with
    | none =>
      match env.esp_mqtt_client_init with
      | none => .aborted [Effect.esp_mqtt_client_init cfg]
      | some c =>
        if env.esp_event_handler_instance_register then
          let r := set_status { state with client := some c }
            JD_AZURE_IOT_HUB_HEALTH_CONNECTION_STATUS_CONNECTING
          .returned (r.1,
            [Effect.esp_mqtt_client_init cfg, Effect.esp_event_handler_instance_register,
              Effect.esp_mqtt_client_start c] ++ r.2)
        else
          .aborted [Effect.esp_mqtt_client_init cfg, Effect.esp_event_handler_instance_register]
    | some c =>
      if env.esp_mqtt_set_config then
        if env.esp_mqtt_client_reconnect then
          let r := set_status state JD_AZURE_IOT_HUB_HEALTH_CONNECTION_STATUS_CONNECTING
          .returned (r.1,
            [Effect.esp_mqtt_set_config c cfg, Effect.esp_mqtt_client_reconnect c] ++ r.2)
        else .aborted [Effect.esp_mqtt_set_config c cfg, Effect.esp_mqtt_client_reconnect c]
      else .aborted [Effect.esp_mqtt_set_config c cfg]

/-- Source lines 198-206: the parts of the token, with the terminating `NULL`. -/
def parts2 (hub_name_enc device_id_enc sas_sig : Str) : List (Option Str) :=
  [some (str "SharedAccessSignature sr="), some hub_name_enc, some (str "%2Fdevices%2F"),
    some device_id_enc, some (str "&se=" ++ EXPIRES), some (str "&sig="), some sas_sig, none]

/-- Source lines 161-235. The buffer `conn_str` carries its length `conn_len`; the
result is the returned `int`, the new state and the effects. When the connect action
of line 169 or 224 aborts, the effects issued before it (the store calls of lines
165-168 or 220-223) are kept in front of those of the aborted action. -/
def set_conn_string (env : Env) (state : srv_state) (conn_str : Str) (save : Bool) :
    Outcome (Int × srv_state × List Effect) :=
  if conn_str.length = 0 then
    let st := clear_conn_string state
    let ev := if save then
        [Effect.nvs_erase_key st.nvs_handle (str "conn_str"), Effect.nvs_commit st.nvs_handle]
      else []
    match azureiothub_reconnect env st with
    | .aborted log => .aborted (ev ++ log)
    | .returned r => .returned (0, r.1, ev ++ r.2)
  else
    match extract_property conn_str (str "HostName"), extract_property conn_str (str "DeviceId"),
      extract_property conn_str (str "SharedAccessKey") with
    | some hub_name, some device_id, some sas_key =>
      let hub_name_enc := jd_urlencode hub_name
      let device_id_enc := jd_urlencode device_id
      match jd_hmac_b64 env sas_key
        [some hub_name_enc, some (str "%2Fdevices%2F"), some device_id_enc, some (str "\n"),
          some EXPIRES, none] with
      | none => .returned (-1, state, [])
      | some sig =>
        let sas_sig := jd_urlencode sig
        let st := { clear_conn_string state with
          hub_name := some hub_name
          device_id := some device_id
          sas_token := some (jd_concat_many (parts2 hub_name_enc device_id_enc sas_sig)) }
        let ev := if save then
            [Effect.nvs_set_blob st.nvs_handle (str "conn_str") conn_str,
              Effect.nvs_commit st.nvs_handle]
          else []
        match azureiothub_reconnect env st with
        | .aborted log => .aborted (ev ++ log)
        | .returned r => .returned (0, r.1, ev ++ r.2)
    | _, _, _ => .returned (-1, state, [])

/-- Source lines 266-286. `SRV_ALLOC` gives a zeroed state; `ESP_ERROR_CHECK` aborts when
`nvs_open` fails; the stored connection string, if any, is installed without saving. -/
def azureiothub_init (env : Env) : Outcome (srv_state × List Effect) :=
  match env.nvs_open with
  | none => .aborted [Effect.nvs_open (str "jdaziot")]
  | some handle =>
    let state : srv_state :=
      { conn_status := JD_AZURE_IOT_HUB_HEALTH_CONNECTION_STATUS_DISCONNECTED
        hub_name := none, device_id := none, sas_token := none
        nvs_handle := handle, client := none }
    let ev := [Effect.nvs_open (str "jdaziot"), Effect.nvs_get_blob_a handle (str "conn_str")]
    match env.nvs_get_blob_a with
    | none => .returned (state, ev)
    | some conn =>
      match set_conn_string env state conn false with
      | .aborted log => .aborted (ev ++ log)
      | .returned r => .returned (r.2.1, ev ++ r.2.2)

/-- The external calls on the path of `azureiothub_reconnect` through lines 144-153 all
succeed: with no session, `esp_mqtt_client_init` returns a handle and the handler
registration returns `ESP_OK`; with a session, `esp_mqtt_set_config` and
`esp_mqtt_client_reconnect` return `ESP_OK`. -/
def transport_accepts (env : Env) (client : Option Nat) : Bool :=
  match client with
  | none => env.esp_mqtt_client_init.isSome && env.esp_event_handler_instance_register
  | some _ => env.esp_mqtt_set_config && env.esp_mqtt_client_reconnect

/-- The commands of `azureiothub_handle_packet` (source lines 240-260); `other` is any
command left to the register handler of the framework. -/
inductive service_command where
  | set_connection_string (data : Str)
  | connect
  | disconnect
  | get_hub_name
  | get_hub_device_id
  | other (cmd : Nat)
  deriving DecidableEq, Repr

/-- Source lines 239-263. The set-connection-string result is dropped, as in the source. -/
def azureiothub_handle_packet (env : Env) (state : srv_state) (pkt : service_command) :
    Outcome (srv_state × List Effect) :=
  match pkt with
  | .set_connection_string data =>
    match set_conn_string env state data true with
    | .aborted log => .aborted log
    | .returned r => .returned (r.2.1, r.2.2)
  | .connect => azureiothub_reconnect env state
  | .disconnect => .returned (azureiothub_disconnect state)
  | .get_hub_name => .returned (state, [Effect.jd_respond_string state.hub_name])
  | .get_hub_device_id => .returned (state, [Effect.jd_respond_string state.device_id])
  | .other cmd => .returned (state, [Effect.service_handle_register_final cmd])

/-! ## Effect lists used in the statements -/

/-- The transport calls of lines 144-153 for a configuration: a new session `c` is
initialised, registered and started when there was none, the old one is reconfigured
and reconnected otherwise. -/
def session_calls (client : Option Nat) (c : Nat) (cfg : esp_mqtt_client_config_t) :
    List Effect :=
  match client with
  | none => [Effect.esp_mqtt_client_init cfg, Effect.esp_event_handler_instance_register,
      Effect.esp_mqtt_client_start c]
  | some c0 => [Effect.esp_mqtt_set_config c0 cfg, Effect.esp_mqtt_client_reconnect c0]

/-- The store calls of lines 220-223. -/
def save_calls (save : Bool) (handle : Nat) (conn_str : Str) : List Effect :=
  if save then [Effect.nvs_set_blob handle (str "conn_str") conn_str, Effect.nvs_commit handle]
  else []

/-! ## Specification vocabulary -/

/-- The effects a call of `set_conn_string` has issued, whether it returned or the
firmware aborted in it. -/
def issued_effects (o : Outcome (Int × srv_state × List Effect)) : List Effect :=
  match o with
  | .returned r => r.2.2
  | .aborted log => log

/-- The input passes the guards of lines 162, 180 and 190 of `set_conn_string`: it is
empty, or the three keys are found and the signature is computed. -/
def input_accepted (env : Env) (conn_str : Str) : Bool :=
  if conn_str.length = 0 then true
  else
    match extract_property conn_str (str "HostName"), extract_property conn_str (str "DeviceId"),
      extract_property conn_str (str "SharedAccessKey") with
    | some hub_name, some device_id, some sas_key =>
      (jd_hmac_b64 env sas_key
        [some (jd_urlencode hub_name), some (str "%2Fdevices%2F"),
          some (jd_urlencode device_id), some (str "\n"), some EXPIRES, none]).isSome
    | _, _, _ => false

/-- The wording of the spec for a parsed value: `v` is the substring of `buf` between the
first (leftmost) occurrence of `key=` and the next `;` or the end of the buffer. -/
def first_value (key buf v : Str) : Prop :=
  ∃ pre post, buf = pre ++ (key ++ str "=") ++ v ++ post ∧
    (∀ i, i < pre.length → ¬ (key ++ str "=") <+: buf.drop i) ∧
    (59 : Byte) ∉ v ∧ (post = [] ∨ ∃ t, post = (59 : Byte) :: t)

/-! ## Runs of the service -/

/-- The operations of section 4.4 of the spec. `set_credentials` is `set_conn_string`
(called with `save = 1` by `azureiothub_handle_packet` and with `save = 0` by
`azureiothub_init`), `connect` is `azureiothub_reconnect`, `disconnect` is
`azureiothub_disconnect`, `on_transport_event` is `mqtt_event_handler_cb`. -/
inductive Op where
  | set_credentials (raw_bytes : Str) (persist : Bool)
  | connect
  | disconnect
  | on_transport_event (event_id : esp_mqtt_event_id_t)
  deriving DecidableEq, Repr

/-- One operation on a state. -/
def step (env : Env) (op : Op) (state : srv_state) : Outcome (srv_state × List Effect) :=
  match op with
  | .set_credentials raw_bytes persist =>
    match set_conn_string env state raw_bytes persist with
    | .aborted log => .aborted log
    | .returned r => .returned (r.2.1, r.2.2)
  | .connect => azureiothub_reconnect env state
  | .disconnect => .returned (azureiothub_disconnect state)
  | .on_transport_event event_id => .returned (mqtt_event_handler_cb state event_id)

/-- A finite sequence of operations, each with the outcomes of its external calls; the
effects are collected in order. -/
def run : List (Env × Op) → srv_state → Outcome (srv_state × List Effect)
  | [], state => .returned (state, [])
  | (env, op) :: rest, state =>
    match step env op state with
    | .aborted log => .aborted log
    | .returned r =>
      match run rest r.1 with
      | .aborted log => .aborted (r.2 ++ log)
      | .returned r2 => .returned (r2.1, r.2 ++ r2.2)

/-- The service from start-up: `azureiothub_init`, then a sequence of operations. -/
def boot_and_run (env0 : Env) (steps : List (Env × Op)) :
    Outcome (srv_state × List Effect) :=
  match azureiothub_init env0 with
  | .aborted log => .aborted log
  | .returned r =>
    match run steps r.1 with
    | .aborted log => .aborted (r.2 ++ log)
    | .returned r2 => .returned (r2.1, r.2 ++ r2.2)

/-- Every transport event of the sequence is delivered while a session exists. -/
def events_have_session : List (Env × Op) → srv_state → Bool
  | [], _ => true
  | (env, op) :: rest, state =>
    (match op with
      | .on_transport_event _ => state.client.isSome
      | _ => true) &&
    (match step env op state with
      | .aborted _ => true
      | .returned r => events_have_session rest r.1)

/-- The payloads of the status-change events of an effect list, in order. -/
def notifications (log : List Effect) : List Nat :=
  log.filterMap (fun e =>
    match e with
    | .jd_send_event_ext payload => some payload
    | _ => none)

/-- The payload of the most recent notification, or `cur` when there is none. -/
def last_status (cur : Nat) : List Nat → Nat
  | [] => cur
  | p :: ps => last_status p ps

/-- The effect is a call of `esp_mqtt_client_init`. -/
def is_session_init (e : Effect) : Bool :=
  match e with
  | .esp_mqtt_client_init _ => true
  | _ => false

/-- The effect is a call to the credential store. -/
def is_store_call (e : Effect) : Bool :=
  match e with
  | .nvs_erase_key _ _ => true
  | .nvs_set_blob _ _ _ => true
  | .nvs_commit _ => true
  | .nvs_open _ => true
  | .nvs_get_blob_a _ _ => true
  | _ => false

/-- The three identity fields are all present or all absent. -/
def identity_ok (state : srv_state) : Prop :=
  (state.hub_name.isSome = state.device_id.isSome) ∧
    (state.device_id.isSome = state.sas_token.isSome)

/-- What one call of `set_conn_string`, `azureiothub_reconnect` or
`azureiothub_disconnect` does to the status, the identity and the session, from `state`
to `state1` with effects `log`: the invariants of the runs are built on these facts.
At most one status-change event, carrying the new status, exactly when the status
changed; the identity invariant is kept; the status is the old one, `Connecting` or
`Disconnecting`; a session that exists is kept and not initialised again; without a
session either nothing happens to status and session or a session is created, by at
most one `esp_mqtt_client_init`. -/
def call_facts (state state1 : srv_state) (log : List Effect) : Prop :=
  notifications log =
      (if state1.conn_status = state.conn_status then [] else [state1.conn_status]) ∧
    (identity_ok state → identity_ok state1) ∧
    (state1.conn_status = state.conn_status ∨
      state1.conn_status = JD_AZURE_IOT_HUB_HEALTH_CONNECTION_STATUS_CONNECTING ∨
      state1.conn_status = JD_AZURE_IOT_HUB_HEALTH_CONNECTION_STATUS_DISCONNECTING) ∧
    (∀ c, state.client = some c →
      state1.client = some c ∧ log.countP is_session_init = 0) ∧
    (state.client = none →
      (state1.client = none ∧ state1.conn_status = state.conn_status ∧
          log.countP is_session_init = 0) ∨
        (state1.client ≠ none ∧ log.countP is_session_init ≤ 1))

/-! ## Test data -/

/-- A state before any connection string was accepted. -/
def state_fresh : srv_state :=
  { conn_status := JD_AZURE_IOT_HUB_HEALTH_CONNECTION_STATUS_DISCONNECTED
    hub_name := none, device_id := none, sas_token := none, nvs_handle := 1, client := none }

/-- A state with an identity and a running session. -/
def state_online : srv_state :=
  { conn_status := JD_AZURE_IOT_HUB_HEALTH_CONNECTION_STATUS_CONNECTED
    hub_name := some (str "hub"), device_id := some (str "dev"), sas_token := some (str "tok")
    nvs_handle := 1, client := some 5 }

/-- The state left by the connection string `HostName=h;DeviceId=d;SharedAccessKey=a2V5`
on `state_fresh` when the signature is `c2ln+/=` and the new session is `7`. -/
def state_accepted : srv_state :=
  { conn_status := JD_AZURE_IOT_HUB_HEALTH_CONNECTION_STATUS_CONNECTING
    hub_name := some (str "h")
    device_id := some (str "d")
    sas_token := some
      (str "SharedAccessSignature sr=h%2Fdevices%2Fd&se=9000000000&sig=c2ln%2B%2F%3D")
    nvs_handle := 1
    client := some 7 }

/-- The effects of that call when `save` is set. -/
def log_accepted : List Effect :=
  [Effect.nvs_set_blob 1 (str "conn_str") (str "HostName=h;DeviceId=d;SharedAccessKey=a2V5"),
    Effect.nvs_commit 1,
    Effect.esp_mqtt_client_init
      { uri := str "mqtts://h"
        client_id := some (str "d")
        username := str "h/d/?api-version=2018-06-30"
        password := some
          (str "SharedAccessSignature sr=h%2Fdevices%2Fd&se=9000000000&sig=c2ln%2B%2F%3D") },
    Effect.esp_event_handler_instance_register,
    Effect.esp_mqtt_client_start 7,
    Effect.jd_send_event_ext JD_AZURE_IOT_HUB_HEALTH_CONNECTION_STATUS_CONNECTING]

/-- An environment in which every external call succeeds; the signature is a fixed
text for the key `a2V5` and signing fails for every other key. -/
def env_ok : Env where
  hmac_sha256_b64 := fun key _ => if key = str "a2V5" then some (str "c2ln+/=") else none
  nvs_open := some 1
  nvs_get_blob_a := none
  esp_mqtt_client_init := some 7
  esp_event_handler_instance_register := true
  esp_mqtt_set_config := true
  esp_mqtt_client_reconnect := true
  nvs_erase_key := true
  nvs_set_blob := true
  nvs_commit := true

/-- The environment `env_ok` with a store whose erase, save and commit all fail. -/
def env_store_fails : Env :=
  { env_ok with nvs_erase_key := false, nvs_set_blob := false, nvs_commit := false }

/-- The environment `env_ok` with a transport whose `esp_mqtt_client_init` returns
`NULL`. -/
def env_no_transport : Env :=
  { env_ok with esp_mqtt_client_init := none }

/-- A start-up environment with a stored connection string. -/
def env_stored : Env :=
  { env_ok with nvs_get_blob_a := some (str "HostName=h;DeviceId=d;SharedAccessKey=a2V5") }

/-- A session of the service: connect, events, a new connection string, clear, connect. -/
def steps_session : List (Env × Op) :=
  [(env_ok, Op.on_transport_event esp_mqtt_event_id_t.MQTT_EVENT_CONNECTED),
    (env_ok, Op.on_transport_event esp_mqtt_event_id_t.MQTT_EVENT_CONNECTED),
    (env_ok, Op.on_transport_event esp_mqtt_event_id_t.MQTT_EVENT_DATA),
    (env_ok, Op.set_credentials (str "HostName=h2;DeviceId=d2;SharedAccessKey=a2V5") true),
    (env_ok, Op.on_transport_event esp_mqtt_event_id_t.MQTT_EVENT_DISCONNECTED),
    (env_ok, Op.set_credentials (str "HostName=h2;DeviceId=d2") true),
    (env_ok, Op.disconnect),
    (env_ok, Op.set_credentials [] true),
    (env_ok, Op.connect)]

/-- Operations on a service that never gets a valid connection string. -/
def steps_offline : List (Env × Op) :=
  [(env_ok, Op.set_credentials (str "HostName=h;DeviceId=d") true),
    (env_ok, Op.disconnect),
    (env_ok, Op.connect),
    (env_ok, Op.set_credentials [] true)]

/-! ## Status changes -/

/-- C4: `set_status state v` notifies exactly when `v` differs from the current status.
With `v` equal to the current status the state is returned as it is and nothing is
emitted; otherwise only `conn_status` changes, to `v`, and the single effect is one
status-change event whose payload is `v`. -/
theorem set_status_notifies_iff_changed (state : srv_state) (v : Nat) :
    set_status state v =
      (if v = state.conn_status then (state, [])
       else ({ state with conn_status := v }, [Effect.jd_send_event_ext v])) ∧
    ((set_status state v).2 = [] ↔ v = state.conn_status) ∧
    ((set_status state v).2 = [Effect.jd_send_event_ext v] ↔ v ≠ state.conn_status) ∧
    (set_status state v).1.conn_status = v ∧
    (set_status state v).1.hub_name = state.hub_name ∧
    (set_status state v).1.device_id = state.device_id ∧
    (set_status state v).1.sas_token = state.sas_token ∧
    (set_status state v).1.nvs_handle = state.nvs_handle ∧
    (set_status state v).1.client = state.client := by
  unfold set_status
  by_cases h : state.conn_status = v
  · subst h
    simp
  · have h2 : ¬ v = state.conn_status := fun e => h e.symm
    simp [h, h2]

/-! ## Disconnect and connect -/

/-- The effects of `set_status` as a function of the old status. -/
theorem set_status_eq (state : srv_state) (v : Nat) :
    set_status state v =
      ({ state with conn_status := v },
        if state.conn_status = v then [] else [Effect.jd_send_event_ext v]) := by
  unfold set_status
  by_cases h : state.conn_status = v
  · subst h
    simp
  · simp [h]

/-- C10: `azureiothub_disconnect` returns the state untouched with no effect when there
is no session. With a session `c` it sets the status to `Disconnecting`, emits the
status-change event only if the status was not `Disconnecting` already, then issues one
`esp_mqtt_client_disconnect c`; the identity, the store handle and the session handle
are kept. -/
theorem azureiothub_disconnect_spec (state : srv_state) :
    azureiothub_disconnect state =
      (match state.client with
       | none => (state, [])
       | some c =>
         ({ state with conn_status := JD_AZURE_IOT_HUB_HEALTH_CONNECTION_STATUS_DISCONNECTING },
          (if state.conn_status = JD_AZURE_IOT_HUB_HEALTH_CONNECTION_STATUS_DISCONNECTING
            then [] else
              [Effect.jd_send_event_ext JD_AZURE_IOT_HUB_HEALTH_CONNECTION_STATUS_DISCONNECTING])
            ++ [Effect.esp_mqtt_client_disconnect c])) ∧
    (azureiothub_disconnect state).1.hub_name = state.hub_name ∧
    (azureiothub_disconnect state).1.device_id = state.device_id ∧
    (azureiothub_disconnect state).1.sas_token = state.sas_token ∧
    (azureiothub_disconnect state).1.nvs_handle = state.nvs_handle ∧
    (azureiothub_disconnect state).1.client = state.client := by
  unfold azureiothub_disconnect
  cases hc : state.client with
  | none => simp [hc]
  | some c => simp [set_status_eq, hc]

/-- C8: with no hub name configured, `azureiothub_reconnect` returns what
`azureiothub_disconnect` returns: same state, same effects. The session handle is the
old one, no `esp_mqtt_client_init` and no `esp_mqtt_client_start` is issued, and the
status is either the old one or `Disconnecting`, which is not `Connecting`. -/
theorem azureiothub_reconnect_without_identity (env : Env) (state : srv_state)
    (h : state.hub_name = none) :
    azureiothub_reconnect env state = Outcome.returned (azureiothub_disconnect state) ∧
    (azureiothub_disconnect state).1.client = state.client ∧
    (∀ cfg, Effect.esp_mqtt_client_init cfg ∉ (azureiothub_disconnect state).2) ∧
    (∀ c, Effect.esp_mqtt_client_start c ∉ (azureiothub_disconnect state).2) ∧
    ((azureiothub_disconnect state).1.conn_status = state.conn_status ∨
      ((azureiothub_disconnect state).1.conn_status =
          JD_AZURE_IOT_HUB_HEALTH_CONNECTION_STATUS_DISCONNECTING ∧
        (azureiothub_disconnect state).1.conn_status ≠
          JD_AZURE_IOT_HUB_HEALTH_CONNECTION_STATUS_CONNECTING)) := by
  refine ⟨by simp [azureiothub_reconnect, h], ?_⟩
  unfold azureiothub_disconnect
  cases hc : state.client with
  | none => simp [hc]
  | some c =>
    simp only [set_status_eq]
    refine ⟨hc, ?_, ?_, ?_⟩
    · intro cfg
      split <;> simp
    · intro c2
      split <;> simp
    · exact Or.inr ⟨trivial, by decide⟩

/-- Witness for C8: a state with a session and no identity. -/
theorem azureiothub_reconnect_without_identity_witness :
    ({ state_fresh with client := some 5 } : srv_state).hub_name = none ∧
    azureiothub_reconnect env_ok { state_fresh with client := some 5 } =
      Outcome.returned (azureiothub_disconnect { state_fresh with client := some 5 }) :=
  ⟨rfl, (azureiothub_reconnect_without_identity env_ok { state_fresh with client := some 5 } rfl).1⟩

/-- A run of `azureiothub_reconnect` on a state with a hub name, when the transport
calls succeed. -/
theorem azureiothub_reconnect_run (env : Env) (state : srv_state) (hub : Str)
    (hh : state.hub_name = some hub) (hacc : transport_accepts env state.client = true) :
    ∃ c, ((state.client = none ∧ env.esp_mqtt_client_init = some c) ∨ state.client = some c) ∧
      azureiothub_reconnect env state =
        Outcome.returned ({ state with
                client := some c
                conn_status := JD_AZURE_IOT_HUB_HEALTH_CONNECTION_STATUS_CONNECTING },
          session_calls state.client c (mqtt_cfg state hub) ++
          (if state.conn_status = JD_AZURE_IOT_HUB_HEALTH_CONNECTION_STATUS_CONNECTING
            then [] else
            [Effect.jd_send_event_ext JD_AZURE_IOT_HUB_HEALTH_CONNECTION_STATUS_CONNECTING])) := by
  cases hc : state.client with
  | none =>
    rw [hc] at hacc
    simp only [transport_accepts, Bool.and_eq_true, Option.isSome_iff_exists] at hacc
    obtain ⟨⟨c, hinit⟩, hreg⟩ := hacc
    refine ⟨c, Or.inl ⟨rfl, hinit⟩, ?_⟩
    simp [azureiothub_reconnect, hh, hc, hinit, hreg, set_status_eq, session_calls]
  | some c =>
    rw [hc] at hacc
    simp only [transport_accepts, Bool.and_eq_true] at hacc
    refine ⟨c, Or.inr rfl, ?_⟩
    simp [azureiothub_reconnect, hh, hc, hacc.1, hacc.2, set_status_eq, session_calls]

/-- C9: with an identity `hub`, `dev`, `tok` configured and the transport calls
succeeding, `azureiothub_reconnect` returns with status `Connecting` and a session `c`.
The configuration it hands over has URI `mqtts://` followed by the hub name, the device
id as client id, `hub/dev/?api-version=2018-06-30` as user name and the token as
password. With no session before, the effects are `esp_mqtt_client_init` with that
configuration, the handler registration and `esp_mqtt_client_start c`, `c` being the new
handle; with a session `c` before, they are `esp_mqtt_set_config c` with that
configuration and `esp_mqtt_client_reconnect c`, and no `esp_mqtt_client_init`. The
status-change event follows when the status was not `Connecting`. -/
theorem azureiothub_reconnect_with_identity (env : Env) (state : srv_state)
    (hub dev tok : Str) (hh : state.hub_name = some hub) (hd : state.device_id = some dev)
    (ht : state.sas_token = some tok) (hacc : transport_accepts env state.client = true) :
    ∃ c cfg,
      cfg = ({ uri := str "mqtts://" ++ hub
               client_id := some dev
               username := hub ++ str "/" ++ dev ++ str "/?api-version=2018-06-30"
               password := some tok } : esp_mqtt_client_config_t) ∧
      ((state.client = none ∧ env.esp_mqtt_client_init = some c ∧
          azureiothub_reconnect env state =
            Outcome.returned ({ state with
                    client := some c
                    conn_status := JD_AZURE_IOT_HUB_HEALTH_CONNECTION_STATUS_CONNECTING },
              [Effect.esp_mqtt_client_init cfg, Effect.esp_event_handler_instance_register,
                Effect.esp_mqtt_client_start c] ++
              (if state.conn_status = JD_AZURE_IOT_HUB_HEALTH_CONNECTION_STATUS_CONNECTING
                then [] else
                [Effect.jd_send_event_ext JD_AZURE_IOT_HUB_HEALTH_CONNECTION_STATUS_CONNECTING])))
        ∨
        (state.client = some c ∧
          azureiothub_reconnect env state =
            Outcome.returned ({ state with
                    conn_status := JD_AZURE_IOT_HUB_HEALTH_CONNECTION_STATUS_CONNECTING },
              [Effect.esp_mqtt_set_config c cfg, Effect.esp_mqtt_client_reconnect c] ++
              (if state.conn_status = JD_AZURE_IOT_HUB_HEALTH_CONNECTION_STATUS_CONNECTING
                then [] else
                [Effect.jd_send_event_ext
                  JD_AZURE_IOT_HUB_HEALTH_CONNECTION_STATUS_CONNECTING])))) := by
  have hcfg : mqtt_cfg state hub =
      { uri := str "mqtts://" ++ hub
        client_id := some dev
        username := hub ++ str "/" ++ dev ++ str "/?api-version=2018-06-30"
        password := some tok } := by
    simp [mqtt_cfg, jd_concat2, jd_concat_many, hd, ht]
  obtain ⟨c, hc, hrun⟩ := azureiothub_reconnect_run env state hub hh hacc
  refine ⟨c, _, rfl, ?_⟩
  rw [hrun, hcfg]
  rcases hc with ⟨hc, hinit⟩ | hc
  · exact Or.inl ⟨hc, hinit, by simp [session_calls, hc]⟩
  · refine Or.inr ⟨hc, ?_⟩
    cases state
    simp_all [session_calls]

/-- Witness for C9: a connected state with an identity is reconnected. -/
theorem azureiothub_reconnect_with_identity_witness :
    state_online.hub_name = some (str "hub") ∧ state_online.device_id = some (str "dev") ∧
    state_online.sas_token = some (str "tok") ∧
    transport_accepts env_ok state_online.client = true ∧
    ∃ r, azureiothub_reconnect env_ok state_online = Outcome.returned r ∧
      r.1.conn_status = JD_AZURE_IOT_HUB_HEALTH_CONNECTION_STATUS_CONNECTING := by
  refine ⟨rfl, rfl, rfl, rfl, ?_⟩
  obtain ⟨c, cfg, -, h | h⟩ :=
    azureiothub_reconnect_with_identity env_ok state_online _ _ _ rfl rfl rfl rfl
  · exact ⟨_, h.2.2, rfl⟩
  · exact ⟨_, h.2, rfl⟩

/-! ## Setting the connection string -/

/-- The string to sign of lines 188-189, joined. -/
theorem string_to_sign_eq (hub_name_enc device_id_enc : Str) :
    jd_concat_many [some hub_name_enc, some (str "%2Fdevices%2F"), some device_id_enc,
      some (str "\n"), some EXPIRES, none] =
      hub_name_enc ++ str "%2Fdevices%2F" ++ device_id_enc ++ str "\n" ++ EXPIRES := by
  simp [jd_concat_many]

/-- The token of lines 198-212, joined. -/
theorem token_eq (hub_name_enc device_id_enc sas_sig : Str) :
    jd_concat_many (parts2 hub_name_enc device_id_enc sas_sig) =
      str "SharedAccessSignature sr=" ++ hub_name_enc ++ str "%2Fdevices%2F" ++
        device_id_enc ++ str "&se=" ++ EXPIRES ++ str "&sig=" ++ sas_sig := by
  simp [jd_concat_many, parts2]

/-- The failure exits of lines 180-193: a missing key or a failed signature end at
`fail` with the state untouched. -/
theorem set_conn_string_fail (env : Env) (state : srv_state) (conn_str : Str) (save : Bool)
    (hne : conn_str ≠ [])
    (hfail : extract_property conn_str (str "HostName") = none ∨
      extract_property conn_str (str "DeviceId") = none ∨
      extract_property conn_str (str "SharedAccessKey") = none ∨
      ∃ h d k, extract_property conn_str (str "HostName") = some h ∧
        extract_property conn_str (str "DeviceId") = some d ∧
        extract_property conn_str (str "SharedAccessKey") = some k ∧
        env.hmac_sha256_b64 k
          (jd_urlencode h ++ str "%2Fdevices%2F" ++ jd_urlencode d ++ str "\n" ++ EXPIRES) =
          none) :
    set_conn_string env state conn_str save = Outcome.returned (-1, state, []) := by
  have hlen : ¬ conn_str.length = 0 := by
    simpa [List.length_eq_zero] using hne
  unfold set_conn_string
  rw [if_neg hlen]
  rcases hfail with h1 | h2 | h3 | ⟨h, d, k, hh, hd, hk, hsig⟩
  · rw [h1]
  · rw [h2]
    split <;> simp_all
  · rw [h3]
    split <;> simp_all
  · rw [hh, hd, hk]
    simp only [jd_hmac_b64, string_to_sign_eq, hsig, Option.map_none']

/-- The token built by lines 185-212 from the hub name, the device id and the signature. -/
theorem installed_token_eq (h d sig : Str) :
    jd_concat_many (parts2 (jd_urlencode h) (jd_urlencode d) (jd_urlencode (c_str sig))) =
      str "SharedAccessSignature sr=" ++ jd_urlencode h ++ str "%2Fdevices%2F" ++
        jd_urlencode d ++ str "&se=" ++ EXPIRES ++ str "&sig=" ++ jd_urlencode (c_str sig) :=
  token_eq _ _ _

/-- The success path of `set_conn_string` (lines 173-226) when the three keys are found,
the signature is computed and the transport calls succeed. -/
theorem set_conn_string_run (env : Env) (state : srv_state) (conn_str : Str) (save : Bool)
    (h d k sig : Str) (hne : conn_str ≠ [])
    (hh : extract_property conn_str (str "HostName") = some h)
    (hd : extract_property conn_str (str "DeviceId") = some d)
    (hk : extract_property conn_str (str "SharedAccessKey") = some k)
    (hsig : env.hmac_sha256_b64 k
      (jd_urlencode h ++ str "%2Fdevices%2F" ++ jd_urlencode d ++ str "\n" ++ EXPIRES) =
      some sig)
    (hacc : transport_accepts env state.client = true) :
    ∃ c, ((state.client = none ∧ env.esp_mqtt_client_init = some c) ∨ state.client = some c) ∧
      set_conn_string env state conn_str save =
        Outcome.returned (0,
          { state with
            hub_name := some h
            device_id := some d
            sas_token := some (jd_concat_many
              (parts2 (jd_urlencode h) (jd_urlencode d) (jd_urlencode (c_str sig))))
            client := some c
            conn_status := JD_AZURE_IOT_HUB_HEALTH_CONNECTION_STATUS_CONNECTING },
          save_calls save state.nvs_handle conn_str ++
          (session_calls state.client c
            { uri := str "mqtts://" ++ h
              client_id := some d
              username := h ++ str "/" ++ d ++ str "/?api-version=2018-06-30"
              password := some (jd_concat_many
                (parts2 (jd_urlencode h) (jd_urlencode d) (jd_urlencode (c_str sig)))) } ++
          (if state.conn_status = JD_AZURE_IOT_HUB_HEALTH_CONNECTION_STATUS_CONNECTING
            then [] else
            [Effect.jd_send_event_ext
              JD_AZURE_IOT_HUB_HEALTH_CONNECTION_STATUS_CONNECTING]))) := by
  have hlen : ¬ conn_str.length = 0 := by
    simpa [List.length_eq_zero] using hne
  obtain ⟨c, hc, hrun⟩ := azureiothub_reconnect_run env
    { clear_conn_string state with
      hub_name := some h
      device_id := some d
      sas_token := some (jd_concat_many
        (parts2 (jd_urlencode h) (jd_urlencode d) (jd_urlencode (c_str sig)))) } h rfl hacc
  refine ⟨c, hc, ?_⟩
  unfold set_conn_string
  rw [if_neg hlen, hh, hd, hk]
  simp only [jd_hmac_b64, string_to_sign_eq, hsig, Option.map_some', hrun]
  simp [clear_conn_string, save_calls, mqtt_cfg, jd_concat2, jd_concat_many]

/-- The scan returns what follows the leftmost occurrence of the pattern. -/
theorem find_after_first (pat : Str) (pre post : Str)
    (hfirst : ∀ i, i < pre.length → ¬ pat <+: (pre ++ pat ++ post).drop i) :
    find_after pat (pre ++ pat ++ post) = some post := by
  induction pre with
  | nil =>
    cases hb : pat ++ post with
    | nil =>
      have hp : pat = [] := (List.append_eq_nil.mp hb).1
      have hq : post = [] := (List.append_eq_nil.mp hb).2
      simp [find_after, hp, hq]
    | cons c cs =>
      have hpre : pat <+: c :: cs := hb ▸ List.prefix_append pat post
      have hdrop : (c :: cs).drop pat.length = post := by
        rw [← hb]
        exact List.drop_left pat post
      simp only [List.nil_append, hb, find_after, if_pos hpre, hdrop]
  | cons a pre ih =>
    have h0 : ¬ pat <+: a :: (pre ++ pat ++ post) := by
      have := hfirst 0 (by simp)
      simpa using this
    have hrest : ∀ i, i < pre.length → ¬ pat <+: (pre ++ pat ++ post).drop i := by
      intro i hi
      have := hfirst (i + 1) (by simpa using hi)
      simpa using this
    show find_after pat (a :: (pre ++ pat ++ post)) = some post
    rw [find_after, if_neg h0]
    exact ih hrest

/-- A value is cut at the first `;`. -/
theorem takeWhile_value (v post : Str) (hv : (59 : Byte) ∉ v)
    (hpost : post = [] ∨ ∃ t, post = (59 : Byte) :: t) :
    List.takeWhile (fun b => decide (b ≠ (59 : Byte))) (v ++ post) = v := by
  induction v with
  | nil =>
    rcases hpost with rfl | ⟨t, rfl⟩ <;> simp
  | cons a v ih =>
    have ha : decide (a ≠ (59 : Byte)) = true := by
      have : a ≠ (59 : Byte) := fun e => hv (by simp [e])
      simpa using this
    have hv2 : (59 : Byte) ∉ v := fun hm => hv (List.mem_cons_of_mem _ hm)
    have hstep : List.takeWhile (fun b => decide (b ≠ (59 : Byte))) (a :: (v ++ post)) =
        a :: List.takeWhile (fun b => decide (b ≠ (59 : Byte))) (v ++ post) :=
      List.takeWhile_cons_of_pos ha
    rw [List.cons_append, hstep, ih hv2]

/-- A value without a zero byte is its own C string. -/
theorem c_str_eq_self (v : Str) (hv : (0 : Byte) ∉ v) : c_str v = v := by
  unfold c_str
  induction v with
  | nil => rfl
  | cons a v ih =>
    have ha : decide (a ≠ (0 : Byte)) = true := by
      have : a ≠ (0 : Byte) := fun e => hv (by simp [e])
      simpa using this
    have hv2 : (0 : Byte) ∉ v := fun hm => hv (List.mem_cons_of_mem _ hm)
    have hstep : List.takeWhile (fun b => decide (b ≠ (0 : Byte))) (a :: v) =
        a :: List.takeWhile (fun b => decide (b ≠ (0 : Byte))) v :=
      List.takeWhile_cons_of_pos ha
    rw [hstep, ih hv2]

/-- The parser returns the value the spec describes, as a C string. -/
theorem extract_property_first_value (key buf v : Str) (hval : first_value key buf v) :
    extract_property buf key = some (c_str v) := by
  obtain ⟨pre, post, hbuf, hfirst, hv, hpost⟩ := hval
  have hbuf2 : buf = pre ++ (key ++ str "=") ++ (v ++ post) := by
    rw [hbuf]
    simp
  have hfind : find_after (key ++ str "=") buf = some (v ++ post) := by
    rw [hbuf2]
    apply find_after_first
    intro i hi
    rw [← hbuf2]
    exact hfirst i hi
  unfold extract_property
  rw [hfind, Option.map_some', takeWhile_value v post hv hpost]

/-- Nothing is found in an empty buffer. -/
theorem extract_property_nil (key : Str) : extract_property [] key = none := by
  have hs : str "=" = [(61 : Byte)] := by decide
  simp [extract_property, find_after, hs]

/-- When the transport refuses a call of lines 144-153 the call aborts, after
transport calls only. -/
theorem azureiothub_reconnect_abort (env : Env) (state : srv_state) (hub : Str)
    (hh : state.hub_name = some hub) (hacc : transport_accepts env state.client = false) :
    ∃ log, azureiothub_reconnect env state = Outcome.aborted log ∧
      log.filter is_store_call = [] ∧ notifications log = [] := by
  cases hc : state.client with
  | none =>
    rw [hc] at hacc
    cases hi : env.esp_mqtt_client_init with
    | none =>
      exact ⟨[Effect.esp_mqtt_client_init (mqtt_cfg state hub)],
        by simp [azureiothub_reconnect, hh, hc, hi], by simp [is_store_call],
        by simp [notifications]⟩
    | some c =>
      have hreg : env.esp_event_handler_instance_register = false := by
        simpa [transport_accepts, hi] using hacc
      exact ⟨[Effect.esp_mqtt_client_init (mqtt_cfg state hub),
          Effect.esp_event_handler_instance_register],
        by simp [azureiothub_reconnect, hh, hc, hi, hreg], by simp [is_store_call],
        by simp [notifications]⟩
  | some c =>
    rw [hc] at hacc
    simp only [transport_accepts, Bool.and_eq_false_iff] at hacc
    by_cases h1 : env.esp_mqtt_set_config = true
    · have h2 : env.esp_mqtt_client_reconnect = false := by
        rcases hacc with h | h
        · rw [h] at h1
          exact absurd h1 (by simp)
        · exact h
      exact ⟨[Effect.esp_mqtt_set_config c (mqtt_cfg state hub),
          Effect.esp_mqtt_client_reconnect c],
        by simp [azureiothub_reconnect, hh, hc, h1, h2], by simp [is_store_call],
        by simp [notifications]⟩
    · exact ⟨[Effect.esp_mqtt_set_config c (mqtt_cfg state hub)],
        by simp [azureiothub_reconnect, hh, hc, h1], by simp [is_store_call],
        by simp [notifications]⟩

/-- A return value `0` on a non-empty buffer means that the three keys were found, the
signature was computed and the transport calls succeeded. -/
theorem set_conn_string_zero_inv (env : Env) (state state1 : srv_state) (conn_str : Str)
    (save : Bool) (log : List Effect) (hne : conn_str ≠ [])
    (hrun : set_conn_string env state conn_str save = Outcome.returned (0, state1, log)) :
    ∃ h d k sig, extract_property conn_str (str "HostName") = some h ∧
      extract_property conn_str (str "DeviceId") = some d ∧
      extract_property conn_str (str "SharedAccessKey") = some k ∧
      env.hmac_sha256_b64 k
        (jd_urlencode h ++ str "%2Fdevices%2F" ++ jd_urlencode d ++ str "\n" ++ EXPIRES) =
        some sig ∧
      transport_accepts env state.client = true := by
  have hlen : ¬ conn_str.length = 0 := by
    simpa [List.length_eq_zero] using hne
  have hnot : set_conn_string env state conn_str save ≠ Outcome.returned (-1, state, []) := by
    rw [hrun]
    simp
  cases hh : extract_property conn_str (str "HostName") with
  | none => exact absurd (set_conn_string_fail env state conn_str save hne (Or.inl hh)) hnot
  | some h =>
    cases hd : extract_property conn_str (str "DeviceId") with
    | none =>
      exact absurd (set_conn_string_fail env state conn_str save hne (Or.inr (Or.inl hd))) hnot
    | some d =>
      cases hk : extract_property conn_str (str "SharedAccessKey") with
      | none =>
        exact absurd
          (set_conn_string_fail env state conn_str save hne (Or.inr (Or.inr (Or.inl hk)))) hnot
      | some k =>
        cases hsig : env.hmac_sha256_b64 k
          (jd_urlencode h ++ str "%2Fdevices%2F" ++ jd_urlencode d ++ str "\n" ++ EXPIRES) with
        | none =>
          exact absurd
            (set_conn_string_fail env state conn_str save hne
              (Or.inr (Or.inr (Or.inr ⟨h, d, k, hh, hd, hk, hsig⟩)))) hnot
        | some sig =>
          refine ⟨h, d, k, sig, rfl, rfl, rfl, hsig, ?_⟩
          cases hacc : transport_accepts env state.client with
          | true => rfl
          | false =>
            exfalso
            obtain ⟨l, hab, -⟩ := azureiothub_reconnect_abort env
              { clear_conn_string state with
                hub_name := some h
                device_id := some d
                sas_token := some (jd_concat_many
                  (parts2 (jd_urlencode h) (jd_urlencode d) (jd_urlencode (c_str sig)))) }
              h rfl hacc
            unfold set_conn_string at hrun
            rw [if_neg hlen, hh, hd, hk] at hrun
            simp only [jd_hmac_b64, string_to_sign_eq, hsig, Option.map_some', hab] at hrun
            exact absurd hrun (by simp)

/-- C1: on a non-empty connection string in which the parser does not find one of
`HostName`, `DeviceId`, `SharedAccessKey`, `set_conn_string` returns `-1`, whatever
`save` is; the state (identity, status, session handle, store handle) is the one it was
given, and the list of effects is empty: no event, no transport call, no store call. -/
theorem set_conn_string_missing_key (env : Env) (state : srv_state) (conn_str : Str)
    (save : Bool) (hne : conn_str ≠ [])
    (hmiss : extract_property conn_str (str "HostName") = none ∨
      extract_property conn_str (str "DeviceId") = none ∨
      extract_property conn_str (str "SharedAccessKey") = none) :
    set_conn_string env state conn_str save = Outcome.returned (-1, state, []) := by
  apply set_conn_string_fail env state conn_str save hne
  rcases hmiss with h | h | h
  · exact Or.inl h
  · exact Or.inr (Or.inl h)
  · exact Or.inr (Or.inr (Or.inl h))

/-- Witness for C1: the device id is missing; the call is made on a connected state with
`save` set. -/
theorem set_conn_string_missing_key_witness :
    str "HostName=h;SharedAccessKey=a2V5" ≠ [] ∧
    extract_property (str "HostName=h;SharedAccessKey=a2V5") (str "DeviceId") = none ∧
    set_conn_string env_ok state_online (str "HostName=h;SharedAccessKey=a2V5") true =
      Outcome.returned (-1, state_online, []) :=
  ⟨by decide, by decide,
    set_conn_string_missing_key env_ok state_online _ true (by decide)
      (Or.inr (Or.inl (by decide)))⟩

/-- C2: on a non-empty connection string in which the three keys are found and the
signature over `enc(hub) %2Fdevices%2F enc(device) newline EXPIRES` with the shared
access key fails, `set_conn_string` returns `-1`; the state is the one it was given (no
token is installed, identity and status are kept) and the list of effects is empty. -/
theorem set_conn_string_signature_failure (env : Env) (state : srv_state) (conn_str : Str)
    (save : Bool) (h d k : Str) (hne : conn_str ≠ [])
    (hh : extract_property conn_str (str "HostName") = some h)
    (hd : extract_property conn_str (str "DeviceId") = some d)
    (hk : extract_property conn_str (str "SharedAccessKey") = some k)
    (hsig : jd_hmac_b64 env k
      [some (jd_urlencode h), some (str "%2Fdevices%2F"), some (jd_urlencode d),
        some (str "\n"), some EXPIRES, none] = none) :
    set_conn_string env state conn_str save = Outcome.returned (-1, state, []) := by
  apply set_conn_string_fail env state conn_str save hne
  refine Or.inr (Or.inr (Or.inr ⟨h, d, k, hh, hd, hk, ?_⟩))
  simp only [jd_hmac_b64, string_to_sign_eq, Option.map_eq_none'] at hsig
  exact hsig

/-- Witness for C2: the key `bad` is not accepted by the signer. -/
theorem set_conn_string_signature_failure_witness :
    str "HostName=h;DeviceId=d;SharedAccessKey=bad" ≠ [] ∧
    extract_property (str "HostName=h;DeviceId=d;SharedAccessKey=bad") (str "SharedAccessKey") =
      some (str "bad") ∧
    set_conn_string env_ok state_online (str "HostName=h;DeviceId=d;SharedAccessKey=bad") true =
      Outcome.returned (-1, state_online, []) :=
  ⟨by decide, by decide,
    set_conn_string_signature_failure env_ok state_online _ true (str "h") (str "d") (str "bad")
      (by decide) (by decide) (by decide) (by decide) (by decide)⟩

/-- C3: when the three keys are found with values `h`, `d`, `k` (the C strings the
parser hands back), the signer returns `sig` for the key `k` and the text
`enc(h) %2Fdevices%2F enc(d) newline 9000000000`, and the transport calls succeed,
`set_conn_string` returns `0` and the token it installs is `SharedAccessSignature sr=`
`enc(h)` `%2Fdevices%2F` `enc(d)` `&se=9000000000` `&sig=` `enc(sig)`, with the signature
read as the C string `c_str sig`: the resource and the expiry of the token are the
signed ones. -/
theorem set_conn_string_token (env : Env) (state : srv_state) (conn_str : Str) (save : Bool)
    (h d k sig : Str) (hne : conn_str ≠ [])
    (hh : extract_property conn_str (str "HostName") = some h)
    (hd : extract_property conn_str (str "DeviceId") = some d)
    (hk : extract_property conn_str (str "SharedAccessKey") = some k)
    (hsig : env.hmac_sha256_b64 k
      (jd_urlencode h ++ str "%2Fdevices%2F" ++ jd_urlencode d ++ str "\n" ++
        str "9000000000") = some sig)
    (hacc : transport_accepts env state.client = true) :
    ∃ state1 log, set_conn_string env state conn_str save = Outcome.returned (0, state1, log) ∧
      state1.sas_token =
        some (str "SharedAccessSignature sr=" ++ jd_urlencode h ++ str "%2Fdevices%2F" ++
          jd_urlencode d ++ str "&se=" ++ str "9000000000" ++ str "&sig=" ++
          jd_urlencode (c_str sig)) := by
  obtain ⟨c, -, hrun⟩ :=
    set_conn_string_run env state conn_str save h d k sig hne hh hd hk hsig hacc
  exact ⟨_, _, hrun, by simp [installed_token_eq, EXPIRES]⟩

/-- Witness for C3: hub `myhub.azure-devices.net`, device `dev1`. -/
theorem set_conn_string_token_witness :
    extract_property (str "HostName=myhub.azure-devices.net;DeviceId=dev1;SharedAccessKey=a2V5")
      (str "HostName") = some (str "myhub.azure-devices.net") ∧
    extract_property (str "HostName=myhub.azure-devices.net;DeviceId=dev1;SharedAccessKey=a2V5")
      (str "DeviceId") = some (str "dev1") ∧
    ∃ state1 log,
      set_conn_string env_ok state_fresh
        (str "HostName=myhub.azure-devices.net;DeviceId=dev1;SharedAccessKey=a2V5") false =
        Outcome.returned (0, state1, log) ∧
      state1.sas_token = some (str
        ("SharedAccessSignature sr=myhub.azure-devices.net%2Fdevices%2Fdev1&se=9000000000&sig=" ++
          "c2ln%2B%2F%3D")) := by
  refine ⟨by decide, by decide, ?_⟩
  obtain ⟨state1, log, hrun, htok⟩ := set_conn_string_token env_ok state_fresh
    (str "HostName=myhub.azure-devices.net;DeviceId=dev1;SharedAccessKey=a2V5") false
    (str "myhub.azure-devices.net") (str "dev1") (str "a2V5") (str "c2ln+/=")
    (by decide) (by decide) (by decide) (by decide) (by decide) (by decide)
  refine ⟨state1, log, hrun, ?_⟩
  rw [htok]
  decide

/-- A zero byte inside a value: the hub name of `HostName=a\0b;...` is the C string `a`,
and the token, the URI, the user name and the hub-name read are built from `a`. -/
theorem zero_byte_ends_value :
    extract_property (str "HostName=a\x00b;DeviceId=d;SharedAccessKey=a2V5") (str "HostName") =
      some (str "a") ∧
    set_conn_string env_ok state_fresh
        (str "HostName=a\x00b;DeviceId=d;SharedAccessKey=a2V5") false =
      Outcome.returned (0,
        { conn_status := JD_AZURE_IOT_HUB_HEALTH_CONNECTION_STATUS_CONNECTING
          hub_name := some (str "a")
          device_id := some (str "d")
          sas_token := some
            (str "SharedAccessSignature sr=a%2Fdevices%2Fd&se=9000000000&sig=c2ln%2B%2F%3D")
          nvs_handle := 1
          client := some 7 },
        [Effect.esp_mqtt_client_init
            { uri := str "mqtts://a"
              client_id := some (str "d")
              username := str "a/d/?api-version=2018-06-30"
              password := some (str
                "SharedAccessSignature sr=a%2Fdevices%2Fd&se=9000000000&sig=c2ln%2B%2F%3D") },
          Effect.esp_event_handler_instance_register,
          Effect.esp_mqtt_client_start 7,
          Effect.jd_send_event_ext JD_AZURE_IOT_HUB_HEALTH_CONNECTION_STATUS_CONNECTING]) := by
  decide

/-- C5: take a well-formed connection string: `h`, `d` and `k` are the substrings
between the first `HostName=`, `DeviceId=`, `SharedAccessKey=` and the next `;` or the
end of the input, wherever the three pairs stand; the three values are text, with no
zero byte; the key `k` signs (the signer returns a signature); and the transport calls
succeed. Then `set_conn_string` returns `0`, and on the state it leaves the hub-name
read answers `h` and the device-id read answers `d`, as they stand in the input, not
percent-encoded. -/
theorem set_conn_string_then_read (env : Env) (state : srv_state) (conn_str : Str)
    (save : Bool) (h d k sig : Str)
    (hh : first_value (str "HostName") conn_str h)
    (hd : first_value (str "DeviceId") conn_str d)
    (hk : first_value (str "SharedAccessKey") conn_str k)
    (hzh : (0 : Byte) ∉ h) (hzd : (0 : Byte) ∉ d) (hzk : (0 : Byte) ∉ k)
    (hsig : env.hmac_sha256_b64 k
      (jd_urlencode h ++ str "%2Fdevices%2F" ++ jd_urlencode d ++ str "\n" ++ EXPIRES) =
      some sig)
    (hacc : transport_accepts env state.client = true) :
    ∃ state1 log, set_conn_string env state conn_str save = Outcome.returned (0, state1, log) ∧
      azureiothub_handle_packet env state1 service_command.get_hub_name =
        Outcome.returned (state1, [Effect.jd_respond_string (some h)]) ∧
      azureiothub_handle_packet env state1 service_command.get_hub_device_id =
        Outcome.returned (state1, [Effect.jd_respond_string (some d)]) := by
  have eh := extract_property_first_value _ _ _ hh
  have ed := extract_property_first_value _ _ _ hd
  have ek := extract_property_first_value _ _ _ hk
  rw [c_str_eq_self h hzh] at eh
  rw [c_str_eq_self d hzd] at ed
  rw [c_str_eq_self k hzk] at ek
  have hne : conn_str ≠ [] := by
    intro e
    rw [e, extract_property_nil] at eh
    exact absurd eh (by simp)
  obtain ⟨c, -, hrun⟩ :=
    set_conn_string_run env state conn_str save h d k sig hne eh ed ek hsig hacc
  exact ⟨_, _, hrun, by simp [azureiothub_handle_packet], by simp [azureiothub_handle_packet]⟩

/-- Witness for C5: the three pairs in another order, with an unrelated pair between. -/
theorem set_conn_string_then_read_witness :
    first_value (str "HostName") (str "SharedAccessKey=a2V5;x=1;DeviceId=dev 1;HostName=my/hub")
      (str "my/hub") ∧
    first_value (str "DeviceId") (str "SharedAccessKey=a2V5;x=1;DeviceId=dev 1;HostName=my/hub")
      (str "dev 1") ∧
    first_value (str "SharedAccessKey")
      (str "SharedAccessKey=a2V5;x=1;DeviceId=dev 1;HostName=my/hub") (str "a2V5") ∧
    ∃ state1 log,
      set_conn_string env_ok state_online
        (str "SharedAccessKey=a2V5;x=1;DeviceId=dev 1;HostName=my/hub") true =
        Outcome.returned (0, state1, log) ∧
      azureiothub_handle_packet env_ok state1 service_command.get_hub_name =
        Outcome.returned (state1, [Effect.jd_respond_string (some (str "my/hub"))]) ∧
      azureiothub_handle_packet env_ok state1 service_command.get_hub_device_id =
        Outcome.returned (state1, [Effect.jd_respond_string (some (str "dev 1"))]) := by
  have hh : first_value (str "HostName")
      (str "SharedAccessKey=a2V5;x=1;DeviceId=dev 1;HostName=my/hub") (str "my/hub") :=
    ⟨str "SharedAccessKey=a2V5;x=1;DeviceId=dev 1;", [], by decide, by decide, by decide,
      Or.inl rfl⟩
  have hd : first_value (str "DeviceId")
      (str "SharedAccessKey=a2V5;x=1;DeviceId=dev 1;HostName=my/hub") (str "dev 1") :=
    ⟨str "SharedAccessKey=a2V5;x=1;", str ";HostName=my/hub", by decide, by decide, by decide,
      Or.inr ⟨_, rfl⟩⟩
  have hk : first_value (str "SharedAccessKey")
      (str "SharedAccessKey=a2V5;x=1;DeviceId=dev 1;HostName=my/hub") (str "a2V5") :=
    ⟨[], str ";x=1;DeviceId=dev 1;HostName=my/hub", by decide, by decide, by decide,
      Or.inr ⟨_, rfl⟩⟩
  exact ⟨hh, hd, hk,
    set_conn_string_then_read env_ok state_online _ true _ _ _ (str "c2ln+/=") hh hd hk
      (by decide) (by decide) (by decide) (by decide) (by decide)⟩

/-- C6: when `set_conn_string` returns `0` on a non-empty connection string, leaving
`state1` with effects `log`, the three keys were found with values `h`, `d`, `k` (the C
strings the parser hands back) and `k` signed with result `sig`; `state1` holds `h` as
hub name, `d` as device id and the token built from `h`, `d` and the C string of `sig`,
all three from the input; the status is `Connecting`; after
the store calls (present only with `save`) the transport was handed the configuration
of this new identity, by `esp_mqtt_client_init`, registration and
`esp_mqtt_client_start` of the new session `c` when there was no session, by
`esp_mqtt_set_config` and `esp_mqtt_client_reconnect` on the session `c` when there was
one; the status-change event closes the list when the status was not `Connecting`. -/
theorem set_conn_string_success (env : Env) (state state1 : srv_state) (conn_str : Str)
    (save : Bool) (log : List Effect) (hne : conn_str ≠ [])
    (hrun : set_conn_string env state conn_str save = Outcome.returned (0, state1, log)) :
    ∃ h d k sig c tok cfg,
      extract_property conn_str (str "HostName") = some h ∧
      extract_property conn_str (str "DeviceId") = some d ∧
      extract_property conn_str (str "SharedAccessKey") = some k ∧
      env.hmac_sha256_b64 k
        (jd_urlencode h ++ str "%2Fdevices%2F" ++ jd_urlencode d ++ str "\n" ++ EXPIRES) =
        some sig ∧
      tok = str "SharedAccessSignature sr=" ++ jd_urlencode h ++ str "%2Fdevices%2F" ++
        jd_urlencode d ++ str "&se=" ++ EXPIRES ++ str "&sig=" ++ jd_urlencode (c_str sig) ∧
      cfg = ({ uri := str "mqtts://" ++ h
               client_id := some d
               username := h ++ str "/" ++ d ++ str "/?api-version=2018-06-30"
               password := some tok } : esp_mqtt_client_config_t) ∧
      state1 = { conn_status := JD_AZURE_IOT_HUB_HEALTH_CONNECTION_STATUS_CONNECTING
                 hub_name := some h
                 device_id := some d
                 sas_token := some tok
                 nvs_handle := state.nvs_handle
                 client := some c } ∧
      ((state.client = none ∧ env.esp_mqtt_client_init = some c ∧
          log = (if save then
                  [Effect.nvs_set_blob state.nvs_handle (str "conn_str") conn_str,
                    Effect.nvs_commit state.nvs_handle]
                else []) ++
            ([Effect.esp_mqtt_client_init cfg, Effect.esp_event_handler_instance_register,
                Effect.esp_mqtt_client_start c] ++
              (if state.conn_status = JD_AZURE_IOT_HUB_HEALTH_CONNECTION_STATUS_CONNECTING
                then [] else
                [Effect.jd_send_event_ext JD_AZURE_IOT_HUB_HEALTH_CONNECTION_STATUS_CONNECTING])))
        ∨
        (state.client = some c ∧
          log = (if save then
                  [Effect.nvs_set_blob state.nvs_handle (str "conn_str") conn_str,
                    Effect.nvs_commit state.nvs_handle]
                else []) ++
            ([Effect.esp_mqtt_set_config c cfg, Effect.esp_mqtt_client_reconnect c] ++
              (if state.conn_status = JD_AZURE_IOT_HUB_HEALTH_CONNECTION_STATUS_CONNECTING
                then [] else
                [Effect.jd_send_event_ext
                  JD_AZURE_IOT_HUB_HEALTH_CONNECTION_STATUS_CONNECTING])))) := by
  obtain ⟨h, d, k, sig, hh, hd, hk, hsig, hacc⟩ :=
    set_conn_string_zero_inv env state state1 conn_str save log hne hrun
  obtain ⟨c, hc, hrun2⟩ :=
    set_conn_string_run env state conn_str save h d k sig hne hh hd hk hsig hacc
  rw [hrun, installed_token_eq] at hrun2
  simp only [Outcome.returned.injEq, Prod.mk.injEq, true_and] at hrun2
  obtain ⟨hst, hlog⟩ := hrun2
  refine ⟨h, d, k, sig, c, _, _, hh, hd, hk, hsig, rfl, rfl, hst, ?_⟩
  rcases hc with ⟨hc, hinit⟩ | hc
  · refine Or.inl ⟨hc, hinit, ?_⟩
    rw [hlog]
    simp [save_calls, session_calls, hc]
  · refine Or.inr ⟨hc, ?_⟩
    rw [hlog]
    simp [save_calls, session_calls, hc]

/-- Witness for C6: a first connection string accepted on a fresh state, with `save`. -/
theorem set_conn_string_success_witness :
    str "HostName=h;DeviceId=d;SharedAccessKey=a2V5" ≠ [] ∧
    set_conn_string env_ok state_fresh (str "HostName=h;DeviceId=d;SharedAccessKey=a2V5") true =
      Outcome.returned (0, state_accepted, log_accepted) ∧
    ∃ h d k, extract_property (str "HostName=h;DeviceId=d;SharedAccessKey=a2V5")
        (str "HostName") = some h ∧
      extract_property (str "HostName=h;DeviceId=d;SharedAccessKey=a2V5")
        (str "DeviceId") = some d ∧
      extract_property (str "HostName=h;DeviceId=d;SharedAccessKey=a2V5")
        (str "SharedAccessKey") = some k := by
  have hrun : set_conn_string env_ok state_fresh
      (str "HostName=h;DeviceId=d;SharedAccessKey=a2V5") true =
      Outcome.returned (0, state_accepted, log_accepted) := by
    decide
  refine ⟨by decide, hrun, ?_⟩
  obtain ⟨h, d, k, -, -, -, -, hh, hd, hk, -⟩ :=
    set_conn_string_success env_ok state_fresh _ _ true _ (by decide) hrun
  exact ⟨h, d, k, hh, hd, hk⟩

/-- C7: `set_conn_string` on the empty input returns `0` for every state. The state and
the effects are those of `azureiothub_disconnect` on the state with its three identity
fields cleared, after the erase and commit of `conn_str` when `save` is set. Hub name,
device id and token are absent afterwards, and the hub-name and device-id reads answer
with the absent string. -/
theorem set_conn_string_empty (env : Env) (state : srv_state) (save : Bool) :
    set_conn_string env state [] save =
      Outcome.returned (0, (azureiothub_disconnect (clear_conn_string state)).1,
        (if save then
          [Effect.nvs_erase_key state.nvs_handle (str "conn_str"),
            Effect.nvs_commit state.nvs_handle]
         else []) ++ (azureiothub_disconnect (clear_conn_string state)).2) ∧
    (clear_conn_string state).hub_name = none ∧
    (clear_conn_string state).device_id = none ∧
    (clear_conn_string state).sas_token = none ∧
    (azureiothub_disconnect (clear_conn_string state)).1.hub_name = none ∧
    (azureiothub_disconnect (clear_conn_string state)).1.device_id = none ∧
    (azureiothub_disconnect (clear_conn_string state)).1.sas_token = none ∧
    azureiothub_handle_packet env (azureiothub_disconnect (clear_conn_string state)).1
        service_command.get_hub_name =
      Outcome.returned ((azureiothub_disconnect (clear_conn_string state)).1,
        [Effect.jd_respond_string none]) ∧
    azureiothub_handle_packet env (azureiothub_disconnect (clear_conn_string state)).1
        service_command.get_hub_device_id =
      Outcome.returned ((azureiothub_disconnect (clear_conn_string state)).1,
        [Effect.jd_respond_string none]) := by
  have hframe : (azureiothub_disconnect (clear_conn_string state)).1.hub_name = none ∧
      (azureiothub_disconnect (clear_conn_string state)).1.device_id = none ∧
      (azureiothub_disconnect (clear_conn_string state)).1.sas_token = none := by
    unfold azureiothub_disconnect
    cases hc : (clear_conn_string state).client with
    | none => simp [clear_conn_string]
    | some c => simp [set_status_eq, clear_conn_string]
  refine ⟨?_, rfl, rfl, rfl, hframe.1, hframe.2.1, hframe.2.2, ?_, ?_⟩
  · simp [set_conn_string, azureiothub_reconnect, clear_conn_string]
  · simp [azureiothub_handle_packet, hframe.1]
  · simp [azureiothub_handle_packet, hframe.2.1]

/-! ## Transport events -/

/-- C11: `mqtt_event_handler_cb` on a connected event sets the status to `Connected`, on
a disconnected event to `Disconnected`, each with the status-change event only when the
status changes; on every other event kind (before-connect, subscribed, unsubscribed,
published, data, message dropped, error, any other id) it returns the state as it is
with no effect. For every event the identity, the store handle and the session handle
are kept. -/
theorem mqtt_event_handler_cb_spec (state : srv_state) :
    mqtt_event_handler_cb state esp_mqtt_event_id_t.MQTT_EVENT_CONNECTED =
      ({ state with conn_status := JD_AZURE_IOT_HUB_HEALTH_CONNECTION_STATUS_CONNECTED },
        if state.conn_status = JD_AZURE_IOT_HUB_HEALTH_CONNECTION_STATUS_CONNECTED then []
        else [Effect.jd_send_event_ext JD_AZURE_IOT_HUB_HEALTH_CONNECTION_STATUS_CONNECTED]) ∧
    mqtt_event_handler_cb state esp_mqtt_event_id_t.MQTT_EVENT_DISCONNECTED =
      ({ state with conn_status := JD_AZURE_IOT_HUB_HEALTH_CONNECTION_STATUS_DISCONNECTED },
        if state.conn_status = JD_AZURE_IOT_HUB_HEALTH_CONNECTION_STATUS_DISCONNECTED then []
        else [Effect.jd_send_event_ext
          JD_AZURE_IOT_HUB_HEALTH_CONNECTION_STATUS_DISCONNECTED]) ∧
    mqtt_event_handler_cb state esp_mqtt_event_id_t.MQTT_EVENT_BEFORE_CONNECT = (state, []) ∧
    mqtt_event_handler_cb state esp_mqtt_event_id_t.MQTT_EVENT_SUBSCRIBED = (state, []) ∧
    mqtt_event_handler_cb state esp_mqtt_event_id_t.MQTT_EVENT_UNSUBSCRIBED = (state, []) ∧
    mqtt_event_handler_cb state esp_mqtt_event_id_t.MQTT_EVENT_PUBLISHED = (state, []) ∧
    mqtt_event_handler_cb state esp_mqtt_event_id_t.MQTT_EVENT_DATA = (state, []) ∧
    mqtt_event_handler_cb state esp_mqtt_event_id_t.MQTT_EVENT_DELETED = (state, []) ∧
    mqtt_event_handler_cb state esp_mqtt_event_id_t.MQTT_EVENT_ERROR = (state, []) ∧
    (∀ id, mqtt_event_handler_cb state (esp_mqtt_event_id_t.other id) = (state, [])) ∧
    (∀ event_id,
      (mqtt_event_handler_cb state event_id).1.hub_name = state.hub_name ∧
      (mqtt_event_handler_cb state event_id).1.device_id = state.device_id ∧
      (mqtt_event_handler_cb state event_id).1.sas_token = state.sas_token ∧
      (mqtt_event_handler_cb state event_id).1.nvs_handle = state.nvs_handle ∧
      (mqtt_event_handler_cb state event_id).1.client = state.client) := by
  refine ⟨by simp [mqtt_event_handler_cb, set_status_eq],
    by simp [mqtt_event_handler_cb, set_status_eq], rfl, rfl, rfl, rfl, rfl, rfl, rfl,
    fun _ => rfl, ?_⟩
  intro event_id
  cases event_id <;> simp [mqtt_event_handler_cb, set_status_eq]

/-- C12: in a state whose status is `Connecting`, a connected event emits one
status-change event, with payload `Connected`, and nothing else; a second connected
event right after it emits nothing and returns the state it was given. -/
theorem connected_event_notifies_once (state : srv_state)
    (h : state.conn_status = JD_AZURE_IOT_HUB_HEALTH_CONNECTION_STATUS_CONNECTING) :
    (mqtt_event_handler_cb state esp_mqtt_event_id_t.MQTT_EVENT_CONNECTED).2 =
      [Effect.jd_send_event_ext JD_AZURE_IOT_HUB_HEALTH_CONNECTION_STATUS_CONNECTED] ∧
    mqtt_event_handler_cb
        (mqtt_event_handler_cb state esp_mqtt_event_id_t.MQTT_EVENT_CONNECTED).1
        esp_mqtt_event_id_t.MQTT_EVENT_CONNECTED =
      ((mqtt_event_handler_cb state esp_mqtt_event_id_t.MQTT_EVENT_CONNECTED).1, []) := by
  have hne : JD_AZURE_IOT_HUB_HEALTH_CONNECTION_STATUS_CONNECTING ≠
      JD_AZURE_IOT_HUB_HEALTH_CONNECTION_STATUS_CONNECTED := by decide
  simp [mqtt_event_handler_cb, set_status_eq, h, hne]

/-- Witness for C12: the state left by an accepted connection string is `Connecting`. -/
theorem connected_event_notifies_once_witness :
    state_accepted.conn_status = JD_AZURE_IOT_HUB_HEALTH_CONNECTION_STATUS_CONNECTING ∧
    (mqtt_event_handler_cb state_accepted esp_mqtt_event_id_t.MQTT_EVENT_CONNECTED).2 =
      [Effect.jd_send_event_ext JD_AZURE_IOT_HUB_HEALTH_CONNECTION_STATUS_CONNECTED] :=
  ⟨rfl, (connected_event_notifies_once state_accepted rfl).1⟩

/-! ## Facts about single calls -/

/-- Notifications of a concatenation. -/
theorem notifications_append (l1 l2 : List Effect) :
    notifications (l1 ++ l2) = notifications l1 ++ notifications l2 := by
  simp [notifications, List.filterMap_append]

/-- The effect list of `set_status` holds the notification and no session start. -/
theorem set_status_log (state : srv_state) (v : Nat) :
    notifications (if state.conn_status = v then [] else [Effect.jd_send_event_ext v]) =
      (if v = state.conn_status then [] else [v]) ∧
    (if state.conn_status = v then [] else [Effect.jd_send_event_ext v]).countP
      is_session_init = 0 := by
  by_cases h : state.conn_status = v
  · simp [h, notifications]
  · have h2 : ¬ v = state.conn_status := fun e => h e.symm
    simp [h, h2, notifications, is_session_init]

/-- The equation of `azureiothub_disconnect`. -/
theorem azureiothub_disconnect_eq (state : srv_state) :
    azureiothub_disconnect state =
      (match state.client with
       | none => (state, [])
       | some c =>
         ({ state with conn_status := JD_AZURE_IOT_HUB_HEALTH_CONNECTION_STATUS_DISCONNECTING },
          (if state.conn_status = JD_AZURE_IOT_HUB_HEALTH_CONNECTION_STATUS_DISCONNECTING
            then [] else
              [Effect.jd_send_event_ext JD_AZURE_IOT_HUB_HEALTH_CONNECTION_STATUS_DISCONNECTING])
            ++ [Effect.esp_mqtt_client_disconnect c])) := by
  unfold azureiothub_disconnect
  cases hc : state.client with
  | none => simp [hc]
  | some c => simp [set_status_eq, hc]

/-- A call that changes nothing. -/
theorem call_facts_refl (state : srv_state) : call_facts state state [] := by
  refine ⟨by simp [notifications], id, Or.inl rfl, fun c hc => ⟨hc, by simp⟩, fun hc => ?_⟩
  exact Or.inl ⟨hc, rfl, by simp⟩

/-- Effects before the call that are neither notifications nor session starts. -/
theorem call_facts_after (state state1 : srv_state) (pre log : List Effect)
    (hn : notifications pre = []) (hi : pre.countP is_session_init = 0)
    (h : call_facts state state1 log) : call_facts state state1 (pre ++ log) := by
  obtain ⟨h1, h2, h3, h4, h5⟩ := h
  refine ⟨by rw [notifications_append, hn, h1]; rfl, h2, h3, ?_, ?_⟩
  · intro c hc
    exact ⟨(h4 c hc).1, by rw [List.countP_append, hi, (h4 c hc).2]⟩
  · intro hc
    rcases h5 hc with ⟨a, b, c⟩ | ⟨a, b⟩
    · exact Or.inl ⟨a, b, by rw [List.countP_append, hi, c]⟩
    · exact Or.inr ⟨a, by rw [List.countP_append, hi]; simpa using b⟩

/-- The facts for `azureiothub_disconnect` run on a state `base` that has the status
and the session of `state`. -/
theorem call_facts_disconnect (state base : srv_state)
    (hs : base.conn_status = state.conn_status) (hc : base.client = state.client)
    (hid : identity_ok state → identity_ok base) :
    call_facts state (azureiothub_disconnect base).1 (azureiothub_disconnect base).2 := by
  rw [azureiothub_disconnect_eq]
  cases hcl : base.client with
  | none =>
    have hcl2 : state.client = none := by rw [← hc, hcl]
    refine ⟨by simp [notifications, hs], hid, Or.inl hs, ?_, fun _ => Or.inl ⟨hcl, hs, by simp⟩⟩
    intro c h
    rw [hcl2] at h
    exact absurd h (by simp)
  | some c =>
    have hcl2 : state.client = some c := by rw [← hc, hcl]
    have hlog := set_status_log base JD_AZURE_IOT_HUB_HEALTH_CONNECTION_STATUS_DISCONNECTING
    refine ⟨?_, hid, Or.inr (Or.inr rfl), ?_, ?_⟩
    · simp only [notifications_append, hlog.1, hs]
      by_cases hst : JD_AZURE_IOT_HUB_HEALTH_CONNECTION_STATUS_DISCONNECTING = state.conn_status
      · simp [notifications, hst]
      · have hst2 : ¬ state.conn_status =
            JD_AZURE_IOT_HUB_HEALTH_CONNECTION_STATUS_DISCONNECTING := fun e => hst e.symm
        simp [notifications, hst, hst2]
    · intro c2 h
      rw [hcl2] at h
      cases h
      refine ⟨rfl, ?_⟩
      simp only [List.countP_append, hlog.2]
      simp [is_session_init]
    · intro h
      rw [hcl2] at h
      exact absurd h (by simp)

/-- The transport calls of lines 144-153 hold no notification, and one session start
exactly when there was no session. -/
theorem session_calls_log (client : Option Nat) (c : Nat) (cfg : esp_mqtt_client_config_t) :
    notifications (session_calls client c cfg) = [] ∧
    (session_calls client c cfg).countP is_session_init = (if client = none then 1 else 0) := by
  cases client with
  | none => simp [session_calls, notifications, is_session_init]
  | some c0 => simp [session_calls, notifications, is_session_init]

/-- The facts for a call that ends with the session `c` and the status `Connecting`,
reached by the transport calls of lines 144-153 and `set_status`. -/
theorem call_facts_connecting (state state1 : srv_state) (c : Nat)
    (cfg : esp_mqtt_client_config_t)
    (hst : state1.conn_status = JD_AZURE_IOT_HUB_HEALTH_CONNECTION_STATUS_CONNECTING)
    (hcl : state1.client = some c) (hc : state.client = none ∨ state.client = some c)
    (hid : identity_ok state → identity_ok state1) :
    call_facts state state1
      (session_calls state.client c cfg ++
        (if state.conn_status = JD_AZURE_IOT_HUB_HEALTH_CONNECTION_STATUS_CONNECTING then []
         else [Effect.jd_send_event_ext
           JD_AZURE_IOT_HUB_HEALTH_CONNECTION_STATUS_CONNECTING])) := by
  have hses := session_calls_log state.client c cfg
  have hlog := set_status_log state JD_AZURE_IOT_HUB_HEALTH_CONNECTION_STATUS_CONNECTING
  refine ⟨?_, hid, Or.inr (Or.inl hst), ?_, ?_⟩
  · rw [notifications_append, hses.1, hlog.1, hst]
    rfl
  · intro c2 h
    rcases hc with hc | hc
    · rw [hc] at h
      exact absurd h (by simp)
    · rw [hc] at h
      cases h
      refine ⟨hcl, ?_⟩
      rw [List.countP_append, hses.2, hlog.2, hc]
      simp
  · intro h
    refine Or.inr ⟨by simp [hcl], ?_⟩
    rw [List.countP_append, hses.2, hlog.2, h]
    simp

/-- The two ways `azureiothub_reconnect` returns. -/
theorem azureiothub_reconnect_cases (env : Env) (state state1 : srv_state)
    (log : List Effect) (hrun : azureiothub_reconnect env state = Outcome.returned (state1, log)) :
    (state.hub_name = none ∧ (state1, log) = azureiothub_disconnect state) ∨
    (∃ hub c, state.hub_name = some hub ∧
      (state.client = none ∨ state.client = some c) ∧
      state1 = { state with
                 client := some c
                 conn_status := JD_AZURE_IOT_HUB_HEALTH_CONNECTION_STATUS_CONNECTING } ∧
      log = session_calls state.client c (mqtt_cfg state hub) ++
        (if state.conn_status = JD_AZURE_IOT_HUB_HEALTH_CONNECTION_STATUS_CONNECTING then []
         else [Effect.jd_send_event_ext
           JD_AZURE_IOT_HUB_HEALTH_CONNECTION_STATUS_CONNECTING])) := by
  cases hh : state.hub_name with
  | none =>
    left
    have : azureiothub_reconnect env state = Outcome.returned (azureiothub_disconnect state) := by
      simp [azureiothub_reconnect, hh]
    rw [this] at hrun
    exact ⟨rfl, (Outcome.returned.inj hrun).symm⟩
  | some hub =>
    right
    cases hacc : transport_accepts env state.client with
    | false =>
      obtain ⟨l, hab, -⟩ := azureiothub_reconnect_abort env state hub hh hacc
      rw [hab] at hrun
      exact absurd hrun (by simp)
    | true =>
      obtain ⟨c, hc, hrun2⟩ := azureiothub_reconnect_run env state hub hh hacc
      rw [hrun] at hrun2
      simp only [Outcome.returned.injEq, Prod.mk.injEq] at hrun2
      refine ⟨hub, c, rfl, ?_, by rw [← hh]; exact hrun2.1, hrun2.2⟩
      rcases hc with ⟨hc, -⟩ | hc
      · exact Or.inl hc
      · exact Or.inr hc

/-- The facts hold for every returning call of `azureiothub_reconnect`. -/
theorem call_facts_reconnect (env : Env) (state state1 : srv_state) (log : List Effect)
    (hrun : azureiothub_reconnect env state = Outcome.returned (state1, log)) :
    call_facts state state1 log := by
  rcases azureiothub_reconnect_cases env state state1 log hrun with
    ⟨-, heq⟩ | ⟨hub, c, -, hc, hst, hlog⟩
  · have h1 : state1 = (azureiothub_disconnect state).1 := congrArg Prod.fst heq
    have h2 : log = (azureiothub_disconnect state).2 := congrArg Prod.snd heq
    rw [h1, h2]
    exact call_facts_disconnect state state rfl rfl id
  · rw [hlog]
    apply call_facts_connecting state state1 c _ (by rw [hst]) (by rw [hst]) hc
    intro hid
    rw [hst]
    exact hid

/-- The success path aborts when the transport refuses a call. -/
theorem set_conn_string_abort (env : Env) (state : srv_state) (conn_str : Str) (save : Bool)
    (h d k sig : Str) (hne : conn_str ≠ [])
    (hh : extract_property conn_str (str "HostName") = some h)
    (hd : extract_property conn_str (str "DeviceId") = some d)
    (hk : extract_property conn_str (str "SharedAccessKey") = some k)
    (hsig : env.hmac_sha256_b64 k
      (jd_urlencode h ++ str "%2Fdevices%2F" ++ jd_urlencode d ++ str "\n" ++ EXPIRES) =
      some sig)
    (hacc : transport_accepts env state.client = false) :
    ∃ l, set_conn_string env state conn_str save =
        Outcome.aborted (save_calls save state.nvs_handle conn_str ++ l) ∧
      l.filter is_store_call = [] ∧ notifications l = [] := by
  have hlen : ¬ conn_str.length = 0 := by
    simpa [List.length_eq_zero] using hne
  obtain ⟨l, hab, hl1, hl2⟩ := azureiothub_reconnect_abort env
    { clear_conn_string state with
      hub_name := some h
      device_id := some d
      sas_token := some (jd_concat_many
        (parts2 (jd_urlencode h) (jd_urlencode d) (jd_urlencode (c_str sig)))) } h rfl hacc
  refine ⟨l, ?_, hl1, hl2⟩
  unfold set_conn_string
  rw [if_neg hlen, hh, hd, hk]
  simp only [jd_hmac_b64, string_to_sign_eq, hsig, Option.map_some', hab]
  simp [clear_conn_string, save_calls]

/-- The empty input: clear, optional erase and commit, then the disconnect action. -/
theorem set_conn_string_nil (env : Env) (state : srv_state) (save : Bool) :
    set_conn_string env state [] save =
      Outcome.returned (0, (azureiothub_disconnect (clear_conn_string state)).1,
        (if save then
          [Effect.nvs_erase_key state.nvs_handle (str "conn_str"),
            Effect.nvs_commit state.nvs_handle]
         else []) ++ (azureiothub_disconnect (clear_conn_string state)).2) := by
  simp [set_conn_string, azureiothub_reconnect, clear_conn_string]

/-- The three ways `set_conn_string` returns: failure with nothing done, the empty input,
and an accepted connection string. -/
theorem set_conn_string_cases (env : Env) (state state1 : srv_state) (conn_str : Str)
    (save : Bool) (r : Int) (log : List Effect)
    (hrun : set_conn_string env state conn_str save = Outcome.returned (r, state1, log)) :
    (conn_str ≠ [] ∧ r = -1 ∧ state1 = state ∧ log = []) ∨
    (conn_str = [] ∧ r = 0 ∧
      state1 = (azureiothub_disconnect (clear_conn_string state)).1 ∧
      log = (if save then
          [Effect.nvs_erase_key state.nvs_handle (str "conn_str"),
            Effect.nvs_commit state.nvs_handle]
         else []) ++ (azureiothub_disconnect (clear_conn_string state)).2) ∨
    (conn_str ≠ [] ∧ r = 0 ∧ ∃ h d k sig c,
      extract_property conn_str (str "HostName") = some h ∧
      extract_property conn_str (str "DeviceId") = some d ∧
      extract_property conn_str (str "SharedAccessKey") = some k ∧
      env.hmac_sha256_b64 k
        (jd_urlencode h ++ str "%2Fdevices%2F" ++ jd_urlencode d ++ str "\n" ++ EXPIRES) =
        some sig ∧
      (state.client = none ∨ state.client = some c) ∧
      state1 = { state with
        hub_name := some h
        device_id := some d
        sas_token := some (jd_concat_many
          (parts2 (jd_urlencode h) (jd_urlencode d) (jd_urlencode (c_str sig))))
        client := some c
        conn_status := JD_AZURE_IOT_HUB_HEALTH_CONNECTION_STATUS_CONNECTING } ∧
      log = save_calls save state.nvs_handle conn_str ++
        (session_calls state.client c
          { uri := str "mqtts://" ++ h
            client_id := some d
            username := h ++ str "/" ++ d ++ str "/?api-version=2018-06-30"
            password := some (jd_concat_many
              (parts2 (jd_urlencode h) (jd_urlencode d) (jd_urlencode (c_str sig)))) } ++
        (if state.conn_status = JD_AZURE_IOT_HUB_HEALTH_CONNECTION_STATUS_CONNECTING
          then [] else
          [Effect.jd_send_event_ext
            JD_AZURE_IOT_HUB_HEALTH_CONNECTION_STATUS_CONNECTING]))) := by
  by_cases hne : conn_str = []
  · subst hne
    rw [set_conn_string_nil] at hrun
    simp only [Outcome.returned.injEq, Prod.mk.injEq] at hrun
    exact Or.inr (Or.inl ⟨rfl, hrun.1.symm, hrun.2.1.symm, hrun.2.2.symm⟩)
  · have hfailed : ∀ hf, set_conn_string env state conn_str save = Outcome.returned (-1, state, []) :=
      fun hf => set_conn_string_fail env state conn_str save hne hf
    have hleft : set_conn_string env state conn_str save = Outcome.returned (-1, state, []) →
        conn_str ≠ [] ∧ r = -1 ∧ state1 = state ∧ log = [] := by
      intro hf
      rw [hrun] at hf
      simp only [Outcome.returned.injEq, Prod.mk.injEq] at hf
      exact ⟨hne, hf.1, hf.2.1, hf.2.2⟩
    cases hh : extract_property conn_str (str "HostName") with
    | none => exact Or.inl (hleft (hfailed (Or.inl hh)))
    | some h =>
      cases hd : extract_property conn_str (str "DeviceId") with
      | none => exact Or.inl (hleft (hfailed (Or.inr (Or.inl hd))))
      | some d =>
        cases hk : extract_property conn_str (str "SharedAccessKey") with
        | none => exact Or.inl (hleft (hfailed (Or.inr (Or.inr (Or.inl hk)))))
        | some k =>
          cases hsig : env.hmac_sha256_b64 k
            (jd_urlencode h ++ str "%2Fdevices%2F" ++ jd_urlencode d ++ str "\n" ++
              EXPIRES) with
          | none =>
            exact Or.inl (hleft (hfailed
              (Or.inr (Or.inr (Or.inr ⟨h, d, k, hh, hd, hk, hsig⟩)))))
          | some sig =>
            cases hacc : transport_accepts env state.client with
            | false =>
              obtain ⟨l, hab, -⟩ :=
                set_conn_string_abort env state conn_str save h d k sig hne hh hd hk hsig hacc
              rw [hab] at hrun
              exact absurd hrun (by simp)
            | true =>
              obtain ⟨c, hc, hrun2⟩ :=
                set_conn_string_run env state conn_str save h d k sig hne hh hd hk hsig hacc
              rw [hrun] at hrun2
              simp only [Outcome.returned.injEq, Prod.mk.injEq] at hrun2
              refine Or.inr (Or.inr ⟨hne, hrun2.1, h, d, k, sig, c, rfl, rfl, rfl, hsig, ?_,
                hrun2.2.1, hrun2.2.2⟩)
              rcases hc with ⟨hc, -⟩ | hc
              · exact Or.inl hc
              · exact Or.inr hc

/-- The facts hold for every returning call of `set_conn_string`. -/
theorem call_facts_set_conn_string (env : Env) (state state1 : srv_state) (conn_str : Str)
    (save : Bool) (r : Int) (log : List Effect)
    (hrun : set_conn_string env state conn_str save = Outcome.returned (r, state1, log)) :
    call_facts state state1 log := by
  rcases set_conn_string_cases env state state1 conn_str save r log hrun with
    ⟨-, -, hst, hlog⟩ | ⟨-, -, hst, hlog⟩ | ⟨-, -, h, d, k, sig, c, -, -, -, -, hc, hst, hlog⟩
  · rw [hst, hlog]
    exact call_facts_refl state
  · rw [hst, hlog]
    apply call_facts_after
    · cases save <;> simp [notifications]
    · cases save <;> simp [is_session_init]
    · apply call_facts_disconnect state (clear_conn_string state) rfl rfl
      intro _
      exact ⟨rfl, rfl⟩
  · rw [hlog]
    apply call_facts_after
    · cases save <;> simp [save_calls, notifications]
    · cases save <;> simp [save_calls, is_session_init]
    · apply call_facts_connecting state state1 c _ (by rw [hst]) (by rw [hst]) hc
      intro _
      rw [hst]
      exact ⟨rfl, rfl⟩

/-- The facts hold for every returning operation that is not a transport event. -/
theorem call_facts_step (env : Env) (op : Op) (state state1 : srv_state) (log : List Effect)
    (hop : ∀ event_id, op ≠ Op.on_transport_event event_id)
    (hrun : step env op state = Outcome.returned (state1, log)) : call_facts state state1 log := by
  cases op with
  | set_credentials raw_bytes persist =>
    cases hs : set_conn_string env state raw_bytes persist with
    | aborted l => simp [step, hs] at hrun
    | returned res =>
      obtain ⟨r, st, lg⟩ := res
      simp only [step, hs, Outcome.returned.injEq, Prod.mk.injEq] at hrun
      rw [← hrun.1, ← hrun.2]
      exact call_facts_set_conn_string env state st raw_bytes persist r lg hs
  | connect => exact call_facts_reconnect env state state1 log hrun
  | disconnect =>
    simp only [step, Outcome.returned.injEq] at hrun
    obtain ⟨rfl, rfl⟩ : (azureiothub_disconnect state).1 = state1 ∧
        (azureiothub_disconnect state).2 = log := by
      rw [hrun]
      exact ⟨rfl, rfl⟩
    exact call_facts_disconnect state state rfl rfl id
  | on_transport_event event_id => exact absurd rfl (hop event_id)

/-- One call of `set_status`: the notification is there exactly when the status changed,
and nothing else is touched. -/
theorem set_status_facts (state : srv_state) (v : Nat) :
    notifications (set_status state v).2 =
      (if (set_status state v).1.conn_status = state.conn_status then []
       else [(set_status state v).1.conn_status]) ∧
    (identity_ok state → identity_ok (set_status state v).1) ∧
    (set_status state v).1.client = state.client ∧
    (set_status state v).2.countP is_session_init = 0 := by
  rw [set_status_eq]
  by_cases h : state.conn_status = v
  · simp [h, notifications, identity_ok]
  · have h2 : ¬ v = state.conn_status := fun e => h e.symm
    simp [h, h2, notifications, identity_ok, is_session_init]

/-- A transport event: at most one status-change event, carrying the new status, exactly
when the status changed; identity and session are kept and no session is started. -/
theorem event_facts (state : srv_state) (event_id : esp_mqtt_event_id_t) :
    notifications (mqtt_event_handler_cb state event_id).2 =
      (if (mqtt_event_handler_cb state event_id).1.conn_status = state.conn_status then []
       else [(mqtt_event_handler_cb state event_id).1.conn_status]) ∧
    (identity_ok state → identity_ok (mqtt_event_handler_cb state event_id).1) ∧
    (mqtt_event_handler_cb state event_id).1.client = state.client ∧
    (mqtt_event_handler_cb state event_id).2.countP is_session_init = 0 := by
  cases event_id with
  | MQTT_EVENT_CONNECTED => exact set_status_facts state _
  | MQTT_EVENT_DISCONNECTED => exact set_status_facts state _
  | _ => simp [mqtt_event_handler_cb, notifications]

/-- Every returning operation emits at most one status-change event: none when the
status is kept, one with the new status when it changed. -/
theorem step_notifications (env : Env) (op : Op) (state state1 : srv_state)
    (log : List Effect) (hrun : step env op state = Outcome.returned (state1, log)) :
    notifications log =
      (if state1.conn_status = state.conn_status then [] else [state1.conn_status]) := by
  by_cases hop : ∀ event_id, op ≠ Op.on_transport_event event_id
  · exact (call_facts_step env op state state1 log hop hrun).1
  · push_neg at hop
    obtain ⟨event_id, rfl⟩ := hop
    simp only [step, Outcome.returned.injEq] at hrun
    obtain ⟨rfl, rfl⟩ : (mqtt_event_handler_cb state event_id).1 = state1 ∧
        (mqtt_event_handler_cb state event_id).2 = log := by
      rw [hrun]
      exact ⟨rfl, rfl⟩
    exact (event_facts state event_id).1

/-- Every returning operation keeps the identity invariant. -/
theorem step_identity (env : Env) (op : Op) (state state1 : srv_state)
    (log : List Effect) (hrun : step env op state = Outcome.returned (state1, log))
    (hid : identity_ok state) : identity_ok state1 := by
  by_cases hop : ∀ event_id, op ≠ Op.on_transport_event event_id
  · exact (call_facts_step env op state state1 log hop hrun).2.1 hid
  · push_neg at hop
    obtain ⟨event_id, rfl⟩ := hop
    simp only [step, Outcome.returned.injEq] at hrun
    obtain ⟨rfl, rfl⟩ : (mqtt_event_handler_cb state event_id).1 = state1 ∧
        (mqtt_event_handler_cb state event_id).2 = log := by
      rw [hrun]
      exact ⟨rfl, rfl⟩
    exact (event_facts state event_id).2.1 hid

/-- Every returning operation keeps an existing session and starts none on it. -/
theorem step_session_kept (env : Env) (op : Op) (state state1 : srv_state)
    (log : List Effect) (c : Nat) (hrun : step env op state = Outcome.returned (state1, log))
    (hc : state.client = some c) :
    state1.client = some c ∧ log.countP is_session_init = 0 := by
  by_cases hop : ∀ event_id, op ≠ Op.on_transport_event event_id
  · exact (call_facts_step env op state state1 log hop hrun).2.2.2.1 c hc
  · push_neg at hop
    obtain ⟨event_id, rfl⟩ := hop
    simp only [step, Outcome.returned.injEq] at hrun
    obtain ⟨rfl, rfl⟩ : (mqtt_event_handler_cb state event_id).1 = state1 ∧
        (mqtt_event_handler_cb state event_id).2 = log := by
      rw [hrun]
      exact ⟨rfl, rfl⟩
    exact ⟨by rw [(event_facts state event_id).2.2.1, hc], (event_facts state event_id).2.2.2⟩

/-- Without a session, a returning operation starts at most one, and none if it leaves
the state without a session. -/
theorem step_session_started (env : Env) (op : Op) (state state1 : srv_state)
    (log : List Effect) (hrun : step env op state = Outcome.returned (state1, log))
    (hc : state.client = none) :
    log.countP is_session_init ≤ 1 ∧ (state1.client = none → log.countP is_session_init = 0) := by
  by_cases hop : ∀ event_id, op ≠ Op.on_transport_event event_id
  · rcases (call_facts_step env op state state1 log hop hrun).2.2.2.2 hc with
      ⟨-, -, h0⟩ | ⟨hsome, h1⟩
    · exact ⟨by omega, fun _ => h0⟩
    · exact ⟨h1, fun h => absurd h hsome⟩
  · push_neg at hop
    obtain ⟨event_id, rfl⟩ := hop
    simp only [step, Outcome.returned.injEq] at hrun
    obtain ⟨rfl, rfl⟩ : (mqtt_event_handler_cb state event_id).1 = state1 ∧
        (mqtt_event_handler_cb state event_id).2 = log := by
      rw [hrun]
      exact ⟨rfl, rfl⟩
    exact ⟨by rw [(event_facts state event_id).2.2.2]; omega,
      fun _ => (event_facts state event_id).2.2.2⟩

/-! ## Facts about runs -/

/-- A run that returns splits into its first operation and the rest. -/
theorem run_cons_inv (env : Env) (op : Op) (rest : List (Env × Op))
    (state state1 : srv_state) (log : List Effect)
    (hrun : run ((env, op) :: rest) state = Outcome.returned (state1, log)) :
    ∃ mid l1 l2, step env op state = Outcome.returned (mid, l1) ∧ run rest mid = Outcome.returned (state1, l2) ∧
      log = l1 ++ l2 := by
  cases hs : step env op state with
  | aborted l => simp [run, hs] at hrun
  | returned r =>
    cases hr : run rest r.1 with
    | aborted l => simp [run, hs, hr] at hrun
    | returned r2 =>
      simp only [run, hs, hr, Outcome.returned.injEq, Prod.mk.injEq] at hrun
      exact ⟨r.1, r.2, r2.2, rfl, by rw [← hrun.1]; exact hr, hrun.2.symm⟩

/-- The service after `azureiothub_init`: the facts of one call, from a state that is
`Disconnected`, without a session and without an identity. -/
theorem azureiothub_init_facts (env0 : Env) (state0 : srv_state) (log0 : List Effect)
    (hinit : azureiothub_init env0 = Outcome.returned (state0, log0)) :
    ∃ st : srv_state,
      st.conn_status = JD_AZURE_IOT_HUB_HEALTH_CONNECTION_STATUS_DISCONNECTED ∧
      st.client = none ∧ identity_ok st ∧ call_facts st state0 log0 := by
  unfold azureiothub_init at hinit
  cases hopen : env0.nvs_open with
  | none => simp [hopen] at hinit
  | some handle =>
    refine ⟨{ conn_status := JD_AZURE_IOT_HUB_HEALTH_CONNECTION_STATUS_DISCONNECTED
              hub_name := none, device_id := none, sas_token := none
              nvs_handle := handle, client := none }, rfl, rfl, ⟨rfl, rfl⟩, ?_⟩
    cases hblob : env0.nvs_get_blob_a with
    | none =>
      simp only [hopen, hblob, Outcome.returned.injEq, Prod.mk.injEq] at hinit
      rw [← hinit.1, ← hinit.2]
      have h := call_facts_after
        { conn_status := JD_AZURE_IOT_HUB_HEALTH_CONNECTION_STATUS_DISCONNECTED
          hub_name := none, device_id := none, sas_token := none
          nvs_handle := handle, client := none } _
        [Effect.nvs_open (str "jdaziot"), Effect.nvs_get_blob_a handle (str "conn_str")] []
        (by simp [notifications]) (by simp [is_session_init]) (call_facts_refl _)
      simpa using h
    | some conn =>
      simp only [hopen, hblob] at hinit
      cases hs : set_conn_string env0
          { conn_status := JD_AZURE_IOT_HUB_HEALTH_CONNECTION_STATUS_DISCONNECTED
            hub_name := none, device_id := none, sas_token := none
            nvs_handle := handle, client := none } conn false with
      | aborted l => simp [hs] at hinit
      | returned res =>
        obtain ⟨r, st, lg⟩ := res
        simp only [hs, Outcome.returned.injEq, Prod.mk.injEq] at hinit
        rw [← hinit.1, ← hinit.2]
        exact call_facts_after _ _
          [Effect.nvs_open (str "jdaziot"), Effect.nvs_get_blob_a handle (str "conn_str")] lg
          (by simp [notifications]) (by simp [is_session_init])
          (call_facts_set_conn_string env0 _ st conn false r lg hs)

/-- One more operation in front of a chain of notifications. -/
theorem chain_extend (cur v : Nat) (l : List Nat)
    (hchain : List.Chain (fun prev p => p ≠ prev) v l) :
    List.Chain (fun prev p => p ≠ prev) cur ((if v = cur then [] else [v]) ++ l) ∧
    last_status cur ((if v = cur then [] else [v]) ++ l) = last_status v l := by
  by_cases h : v = cur
  · subst h
    simpa using hchain
  · simp only [if_neg h, List.singleton_append, List.chain_cons, last_status]
    exact ⟨⟨h, hchain⟩, trivial⟩

/-- Along a run every notification differs from the one before it, the first one from
the status at the start, and the final status is the last payload. -/
theorem run_chain (steps : List (Env × Op)) :
    ∀ (state state1 : srv_state) (log : List Effect),
      run steps state = Outcome.returned (state1, log) →
      List.Chain (fun prev p => p ≠ prev) state.conn_status (notifications log) ∧
      state1.conn_status = last_status state.conn_status (notifications log) := by
  induction steps with
  | nil =>
    intro state state1 log hrun
    simp only [run, Outcome.returned.injEq, Prod.mk.injEq] at hrun
    rw [← hrun.1, ← hrun.2]
    simp [notifications, last_status]
  | cons x rest ih =>
    intro state state1 log hrun
    obtain ⟨env, op⟩ := x
    obtain ⟨mid, l1, l2, hstep, hrest, hlog⟩ := run_cons_inv env op rest state state1 log hrun
    obtain ⟨hc, hl⟩ := ih mid state1 l2 hrest
    have hn := step_notifications env op state mid l1 hstep
    obtain ⟨hc2, hl2⟩ := chain_extend state.conn_status mid.conn_status (notifications l2) hc
    rw [hlog, notifications_append, hn]
    exact ⟨hc2, by rw [hl2, hl]⟩

/-- A session that exists is kept by every run, and no run starts it again. -/
theorem run_session_kept (steps : List (Env × Op)) :
    ∀ (state state1 : srv_state) (log : List Effect) (c : Nat),
      state.client = some c → run steps state = Outcome.returned (state1, log) →
      state1.client = some c ∧ log.countP is_session_init = 0 := by
  induction steps with
  | nil =>
    intro state state1 log c hc hrun
    simp only [run, Outcome.returned.injEq, Prod.mk.injEq] at hrun
    rw [← hrun.1, ← hrun.2]
    exact ⟨hc, by simp⟩
  | cons x rest ih =>
    intro state state1 log c hc hrun
    obtain ⟨env, op⟩ := x
    obtain ⟨mid, l1, l2, hstep, hrest, hlog⟩ := run_cons_inv env op rest state state1 log hrun
    obtain ⟨hmid, h1⟩ := step_session_kept env op state mid l1 c hstep hc
    obtain ⟨hfin, h2⟩ := ih mid state1 l2 c hmid hrest
    exact ⟨hfin, by rw [hlog, List.countP_append, h1, h2]⟩

/-- A run starts at most one session. -/
theorem run_session_count (steps : List (Env × Op)) :
    ∀ (state state1 : srv_state) (log : List Effect),
      run steps state = Outcome.returned (state1, log) → log.countP is_session_init ≤ 1 := by
  induction steps with
  | nil =>
    intro state state1 log hrun
    simp only [run, Outcome.returned.injEq, Prod.mk.injEq] at hrun
    rw [← hrun.2]
    simp
  | cons x rest ih =>
    intro state state1 log hrun
    obtain ⟨env, op⟩ := x
    obtain ⟨mid, l1, l2, hstep, hrest, hlog⟩ := run_cons_inv env op rest state state1 log hrun
    rw [hlog, List.countP_append]
    cases hc : state.client with
    | some c =>
      obtain ⟨hmid, h1⟩ := step_session_kept env op state mid l1 c hstep hc
      have h2 := (run_session_kept rest mid state1 l2 c hmid hrest).2
      omega
    | none =>
      obtain ⟨h1, h0⟩ := step_session_started env op state mid l1 hstep hc
      cases hm : mid.client with
      | none =>
        have := h0 hm
        have := ih mid state1 l2 hrest
        omega
      | some c =>
        have h2 := (run_session_kept rest mid state1 l2 c hm hrest).2
        omega

/-- Every run keeps the identity invariant. -/
theorem run_identity (steps : List (Env × Op)) :
    ∀ (state state1 : srv_state) (log : List Effect),
      identity_ok state → run steps state = Outcome.returned (state1, log) → identity_ok state1 := by
  induction steps with
  | nil =>
    intro state state1 log hid hrun
    simp only [run, Outcome.returned.injEq, Prod.mk.injEq] at hrun
    rw [← hrun.1]
    exact hid
  | cons x rest ih =>
    intro state state1 log hid hrun
    obtain ⟨env, op⟩ := x
    obtain ⟨mid, l1, l2, hstep, hrest, -⟩ := run_cons_inv env op rest state state1 log hrun
    exact ih mid state1 l2 (step_identity env op state mid l1 hstep hid) hrest

/-- When events arrive only while a session exists, a run keeps: no session means
status `Disconnected`. -/
theorem run_session_status (steps : List (Env × Op)) :
    ∀ (state state1 : srv_state) (log : List Effect),
      (state.client = none →
        state.conn_status = JD_AZURE_IOT_HUB_HEALTH_CONNECTION_STATUS_DISCONNECTED) →
      events_have_session steps state = true →
      run steps state = Outcome.returned (state1, log) →
      state1.client = none →
      state1.conn_status = JD_AZURE_IOT_HUB_HEALTH_CONNECTION_STATUS_DISCONNECTED := by
  induction steps with
  | nil =>
    intro state state1 log hinv _ hrun
    simp only [run, Outcome.returned.injEq, Prod.mk.injEq] at hrun
    rw [← hrun.1]
    exact hinv
  | cons x rest ih =>
    intro state state1 log hinv hev hrun
    obtain ⟨env, op⟩ := x
    obtain ⟨mid, l1, l2, hstep, hrest, -⟩ := run_cons_inv env op rest state state1 log hrun
    simp only [events_have_session, hstep, Bool.and_eq_true] at hev
    refine ih mid state1 l2 ?_ hev.2 hrest
    intro hmid
    cases hc : state.client with
    | some c =>
      have := (step_session_kept env op state mid l1 c hstep hc).1
      rw [hmid] at this
      exact absurd this (by simp)
    | none =>
      have hop : ∀ event_id, op ≠ Op.on_transport_event event_id := by
        intro event_id e
        rw [e] at hev
        simp [hc] at hev
      rcases (call_facts_step env op state mid l1 hop hstep).2.2.2.2 hc with
        ⟨-, hs, -⟩ | ⟨hsome, -⟩
      · rw [hs]
        exact hinv hc
      · exact absurd hmid hsome

/-- A run from start-up splits into `azureiothub_init` and the operations. -/
theorem boot_and_run_inv (env0 : Env) (steps : List (Env × Op)) (state1 : srv_state)
    (log : List Effect) (hrun : boot_and_run env0 steps = Outcome.returned (state1, log)) :
    ∃ state0 log0 l, azureiothub_init env0 = Outcome.returned (state0, log0) ∧
      run steps state0 = Outcome.returned (state1, l) ∧ log = log0 ++ l := by
  cases hi : azureiothub_init env0 with
  | aborted l => simp [boot_and_run, hi] at hrun
  | returned r =>
    cases hr : run steps r.1 with
    | aborted l => simp [boot_and_run, hi, hr] at hrun
    | returned r2 =>
      simp only [boot_and_run, hi, hr, Outcome.returned.injEq, Prod.mk.injEq] at hrun
      exact ⟨r.1, r.2, r2.2, rfl, by rw [← hrun.1]; exact hr, hrun.2.symm⟩

/-! ## Invariants of the runs -/

/-- C13: for every sequence of operations and transport events run after
`azureiothub_init`, each status-change event of the effect list carries a payload
different from the one before it, the first one different from `Disconnected`; the
status of the final state is the payload of the last event, or `Disconnected` when
there is none; and whatever operation comes next, it emits no event when it keeps the
status and exactly one, carrying the status it leaves, when it changes the status. -/
theorem notifications_follow_status (env0 : Env) (steps : List (Env × Op))
    (state1 : srv_state) (log : List Effect)
    (hrun : boot_and_run env0 steps = Outcome.returned (state1, log)) :
    List.Chain (fun prev p => p ≠ prev)
      JD_AZURE_IOT_HUB_HEALTH_CONNECTION_STATUS_DISCONNECTED (notifications log) ∧
    state1.conn_status =
      last_status JD_AZURE_IOT_HUB_HEALTH_CONNECTION_STATUS_DISCONNECTED (notifications log) ∧
    (∀ env op state2 log2, step env op state1 = Outcome.returned (state2, log2) →
      notifications log2 =
        (if state2.conn_status = state1.conn_status then [] else [state2.conn_status])) := by
  obtain ⟨state0, log0, l, hinit, hrest, hlog⟩ := boot_and_run_inv env0 steps state1 log hrun
  obtain ⟨st, hst, -, -, hfacts⟩ := azureiothub_init_facts env0 state0 log0 hinit
  obtain ⟨hc, hl⟩ := run_chain steps state0 state1 l hrest
  obtain ⟨hc2, hl2⟩ := chain_extend st.conn_status state0.conn_status (notifications l) hc
  rw [hlog, notifications_append, hfacts.1, ← hst]
  exact ⟨hc2, by rw [hl2, hl], fun env op state2 log2 h =>
    step_notifications env op state1 state2 log2 h⟩

/-- Witness for C13: start-up with a stored connection string, then connected events, a
new connection string, a disconnected event, a rejected string, disconnect, clear,
connect. -/
theorem notifications_follow_status_witness :
    ∃ state1 log, boot_and_run env_stored steps_session = Outcome.returned (state1, log) ∧
      notifications log =
        [JD_AZURE_IOT_HUB_HEALTH_CONNECTION_STATUS_CONNECTING,
          JD_AZURE_IOT_HUB_HEALTH_CONNECTION_STATUS_CONNECTED,
          JD_AZURE_IOT_HUB_HEALTH_CONNECTION_STATUS_CONNECTING,
          JD_AZURE_IOT_HUB_HEALTH_CONNECTION_STATUS_DISCONNECTED,
          JD_AZURE_IOT_HUB_HEALTH_CONNECTION_STATUS_DISCONNECTING] ∧
      state1.conn_status =
        last_status JD_AZURE_IOT_HUB_HEALTH_CONNECTION_STATUS_DISCONNECTED
          (notifications log) := by
  have hv : (boot_and_run env_stored steps_session).result.map
      (fun r => notifications r.2) =
      some [JD_AZURE_IOT_HUB_HEALTH_CONNECTION_STATUS_CONNECTING,
        JD_AZURE_IOT_HUB_HEALTH_CONNECTION_STATUS_CONNECTED,
        JD_AZURE_IOT_HUB_HEALTH_CONNECTION_STATUS_CONNECTING,
        JD_AZURE_IOT_HUB_HEALTH_CONNECTION_STATUS_DISCONNECTED,
        JD_AZURE_IOT_HUB_HEALTH_CONNECTION_STATUS_DISCONNECTING] := by
    decide
  cases h : boot_and_run env_stored steps_session with
  | aborted l =>
    rw [h] at hv
    exact absurd hv (by simp [Outcome.result])
  | returned r =>
    obtain ⟨state1, log⟩ := r
    rw [h] at hv
    simp only [Outcome.result, Option.map_some', Option.some.injEq] at hv
    exact ⟨state1, log, rfl, hv,
      (notifications_follow_status env_stored steps_session state1 log h).2.1⟩

/-- C14: after `azureiothub_init` and after every sequence of operations and transport
events that follows it (connection strings accepted, rejected or empty, connect,
disconnect, any event), hub name, device id and token are all present or all absent. -/
theorem identity_all_or_none (env0 : Env) (steps : List (Env × Op))
    (state1 : srv_state) (log : List Effect)
    (hrun : boot_and_run env0 steps = Outcome.returned (state1, log)) :
    (state1.hub_name.isSome = state1.device_id.isSome) ∧
      (state1.device_id.isSome = state1.sas_token.isSome) := by
  obtain ⟨state0, log0, l, hinit, hrest, -⟩ := boot_and_run_inv env0 steps state1 log hrun
  obtain ⟨st, -, -, hid, hfacts⟩ := azureiothub_init_facts env0 state0 log0 hinit
  exact run_identity steps state0 state1 l (hfacts.2.1 hid) hrest

/-- Witness for C14: the run of the witness for C13 ends with the identity cleared. -/
theorem identity_all_or_none_witness :
    ∃ state1 log, boot_and_run env_stored steps_session = Outcome.returned (state1, log) ∧
      state1.hub_name.isSome = state1.device_id.isSome ∧
      state1.device_id.isSome = state1.sas_token.isSome := by
  have hv : (boot_and_run env_stored steps_session).result.isSome = true := by decide
  cases h : boot_and_run env_stored steps_session with
  | aborted l =>
    rw [h] at hv
    exact absurd hv (by simp [Outcome.result])
  | returned r =>
    obtain ⟨state1, log⟩ := r
    exact ⟨state1, log, rfl, identity_all_or_none env_stored steps_session state1 log h⟩

/-! ## The credential store -/

/-- The disconnect action makes no store call. -/
theorem store_calls_disconnect (state : srv_state) :
    (azureiothub_disconnect state).2.filter is_store_call = [] := by
  rw [azureiothub_disconnect_eq]
  cases state.client with
  | none => simp
  | some c =>
    by_cases h : state.conn_status = JD_AZURE_IOT_HUB_HEALTH_CONNECTION_STATUS_DISCONNECTING
    · simp [h, is_store_call]
    · simp [h, is_store_call]

/-- The connect action makes no store call. -/
theorem store_calls_session (client : Option Nat) (c : Nat) (cfg : esp_mqtt_client_config_t)
    (status v : Nat) :
    (session_calls client c cfg ++
      (if status = v then [] else [Effect.jd_send_event_ext v])).filter is_store_call = [] := by
  cases client with
  | none => by_cases h : status = v <;> simp [session_calls, h, is_store_call]
  | some c0 => by_cases h : status = v <;> simp [session_calls, h, is_store_call]

/-- The guards of `set_conn_string` fail on a non-empty input with a missing key or a
failed signature. -/
theorem input_accepted_fail (env : Env) (conn_str : Str) (hne : conn_str ≠ [])
    (hfail : extract_property conn_str (str "HostName") = none ∨
      extract_property conn_str (str "DeviceId") = none ∨
      extract_property conn_str (str "SharedAccessKey") = none ∨
      ∃ h d k, extract_property conn_str (str "HostName") = some h ∧
        extract_property conn_str (str "DeviceId") = some d ∧
        extract_property conn_str (str "SharedAccessKey") = some k ∧
        env.hmac_sha256_b64 k
          (jd_urlencode h ++ str "%2Fdevices%2F" ++ jd_urlencode d ++ str "\n" ++ EXPIRES) =
          none) :
    input_accepted env conn_str = false := by
  have hlen : ¬ conn_str.length = 0 := by
    simpa [List.length_eq_zero] using hne
  unfold input_accepted
  rw [if_neg hlen]
  rcases hfail with h1 | h2 | h3 | ⟨h, d, k, hh, hd, hk, hsig⟩
  · rw [h1]
  · rw [h2]
    split <;> simp_all
  · rw [h3]
    split <;> simp_all
  · rw [hh, hd, hk]
    simp only [jd_hmac_b64, string_to_sign_eq, hsig, Option.map_none', Option.isSome_none]

/-- The guards of `set_conn_string` pass when the three keys are found and the signature
is computed. -/
theorem input_accepted_ok (env : Env) (conn_str : Str) (h d k sig : Str)
    (hh : extract_property conn_str (str "HostName") = some h)
    (hd : extract_property conn_str (str "DeviceId") = some d)
    (hk : extract_property conn_str (str "SharedAccessKey") = some k)
    (hsig : env.hmac_sha256_b64 k
      (jd_urlencode h ++ str "%2Fdevices%2F" ++ jd_urlencode d ++ str "\n" ++ EXPIRES) =
      some sig) :
    input_accepted env conn_str = true := by
  unfold input_accepted
  split
  · rfl
  · rw [hh, hd, hk]
    simp only [jd_hmac_b64, string_to_sign_eq, hsig, Option.map_some', Option.isSome_some]

/-- The store calls of lines 220-223, filtered. -/
theorem store_calls_save (save : Bool) (handle : Nat) (conn_str : Str) :
    (save_calls save handle conn_str).filter is_store_call =
      (if save then
        [Effect.nvs_set_blob handle (str "conn_str") conn_str, Effect.nvs_commit handle]
       else []) := by
  cases save <;> simp [save_calls, is_store_call]

/-- C15, counterexample: with `save` set, an accepted connection string and a transport
whose `esp_mqtt_client_init` returns `NULL`, the call does not succeed (the firmware
aborts in the `JD_ASSERT` of line 146, nothing is returned), and the store has been
written: `nvs_set_blob` and `nvs_commit` are issued before the connect action. -/
theorem store_written_before_abort :
    set_conn_string env_no_transport state_fresh
        (str "HostName=h;DeviceId=d;SharedAccessKey=a2V5") true =
      Outcome.aborted
        [Effect.nvs_set_blob 1 (str "conn_str")
            (str "HostName=h;DeviceId=d;SharedAccessKey=a2V5"),
          Effect.nvs_commit 1,
          Effect.esp_mqtt_client_init
            { uri := str "mqtts://h"
              client_id := some (str "d")
              username := str "h/d/?api-version=2018-06-30"
              password := some (str
                "SharedAccessSignature sr=h%2Fdevices%2Fd&se=9000000000&sig=c2ln%2B%2F%3D") }] ∧
    (set_conn_string env_no_transport state_fresh
        (str "HostName=h;DeviceId=d;SharedAccessKey=a2V5") true).result = none := by
  decide

/-- C15, amended: the store calls issued by `set_conn_string`, whether it returns or the
connect action aborts, are decided by `save` and by the guards on the input alone. With
`save` set and the input accepted they are, for the empty input, the erase of `conn_str`
and a commit, and for a non-empty input the save of the whole input buffer, unmodified,
under `conn_str` and a commit; with `save` not set, or with a missing key or a failed
signature, there is none. A call that returns gives `0` on an accepted input and `-1`,
with no effect at all, on a rejected one; a call that aborts had an accepted non-empty
input. -/
theorem set_conn_string_store_calls (env : Env) (state : srv_state) (conn_str : Str)
    (save : Bool) :
    (issued_effects (set_conn_string env state conn_str save)).filter is_store_call =
      (if save = true ∧ input_accepted env conn_str = true then
        (if conn_str = [] then
          [Effect.nvs_erase_key state.nvs_handle (str "conn_str"),
            Effect.nvs_commit state.nvs_handle]
         else
          [Effect.nvs_set_blob state.nvs_handle (str "conn_str") conn_str,
            Effect.nvs_commit state.nvs_handle])
       else []) ∧
    (∀ r state1 log,
      set_conn_string env state conn_str save = Outcome.returned (r, state1, log) →
      (r = 0 ∧ input_accepted env conn_str = true) ∨
        (r = -1 ∧ log = [] ∧ input_accepted env conn_str = false)) ∧
    (∀ log, set_conn_string env state conn_str save = Outcome.aborted log →
      conn_str ≠ [] ∧ input_accepted env conn_str = true) := by
  by_cases hne : conn_str = []
  · subst hne
    have hacc : input_accepted env [] = true := by simp [input_accepted]
    rw [set_conn_string_nil]
    refine ⟨?_, ?_, ?_⟩
    · simp only [issued_effects, List.filter_append, store_calls_disconnect, hacc]
      cases save <;> simp [is_store_call]
    · intro r state1 log h
      simp only [Outcome.returned.injEq, Prod.mk.injEq] at h
      exact Or.inl ⟨h.1.symm, hacc⟩
    · intro log h
      exact absurd h (by simp)
  · by_cases hfail : extract_property conn_str (str "HostName") = none ∨
        extract_property conn_str (str "DeviceId") = none ∨
        extract_property conn_str (str "SharedAccessKey") = none ∨
        ∃ h d k, extract_property conn_str (str "HostName") = some h ∧
          extract_property conn_str (str "DeviceId") = some d ∧
          extract_property conn_str (str "SharedAccessKey") = some k ∧
          env.hmac_sha256_b64 k
            (jd_urlencode h ++ str "%2Fdevices%2F" ++ jd_urlencode d ++ str "\n" ++ EXPIRES) =
            none
    · have hacc := input_accepted_fail env conn_str hne hfail
      rw [set_conn_string_fail env state conn_str save hne hfail]
      refine ⟨by simp [issued_effects, hacc], ?_, ?_⟩
      · intro r state1 log h
        simp only [Outcome.returned.injEq, Prod.mk.injEq] at h
        exact Or.inr ⟨h.1.symm, h.2.2.symm, hacc⟩
      · intro log h
        exact absurd h (by simp)
    · obtain ⟨h, d, k, sig, hh, hd, hk, hsig⟩ :
          ∃ h d k sig, extract_property conn_str (str "HostName") = some h ∧
            extract_property conn_str (str "DeviceId") = some d ∧
            extract_property conn_str (str "SharedAccessKey") = some k ∧
            env.hmac_sha256_b64 k
              (jd_urlencode h ++ str "%2Fdevices%2F" ++ jd_urlencode d ++ str "\n" ++
                EXPIRES) = some sig := by
        cases hh : extract_property conn_str (str "HostName") with
        | none => exact absurd (Or.inl hh) hfail
        | some h =>
          cases hd : extract_property conn_str (str "DeviceId") with
          | none => exact absurd (Or.inr (Or.inl hd)) hfail
          | some d =>
            cases hk : extract_property conn_str (str "SharedAccessKey") with
            | none => exact absurd (Or.inr (Or.inr (Or.inl hk))) hfail
            | some k =>
              cases hsig : env.hmac_sha256_b64 k
                (jd_urlencode h ++ str "%2Fdevices%2F" ++ jd_urlencode d ++ str "\n" ++
                  EXPIRES) with
              | none =>
                exact absurd (Or.inr (Or.inr (Or.inr ⟨h, d, k, hh, hd, hk, hsig⟩))) hfail
              | some sig => exact ⟨h, d, k, sig, rfl, rfl, rfl, hsig⟩
      have hacc := input_accepted_ok env conn_str h d k sig hh hd hk hsig
      cases htr : transport_accepts env state.client with
      | true =>
        obtain ⟨c, -, hrun⟩ :=
          set_conn_string_run env state conn_str save h d k sig hne hh hd hk hsig htr
        rw [hrun]
        refine ⟨?_, ?_, ?_⟩
        · simp only [issued_effects]
          rw [List.filter_append, store_calls_session, store_calls_save, List.append_nil]
          cases save <;> simp [hne, hacc]
        · intro r state1 log h1
          simp only [Outcome.returned.injEq, Prod.mk.injEq] at h1
          exact Or.inl ⟨h1.1.symm, hacc⟩
        · intro log h1
          exact absurd h1 (by simp)
      | false =>
        obtain ⟨l, hab, hl, -⟩ :=
          set_conn_string_abort env state conn_str save h d k sig hne hh hd hk hsig htr
        rw [hab]
        refine ⟨?_, ?_, ?_⟩
        · simp only [issued_effects, List.filter_append, store_calls_save, hl, hacc]
          cases save <;> simp [hne]
        · intro r state1 log h1
          exact absurd h1 (by simp)
        · intro log _
          exact ⟨hne, hacc⟩

/-- C16, counterexample: with `save` set and a store whose save and commit fail,
`set_conn_string` returns `0`, the result it returns when the store succeeds, after the
same state change and the same calls; the failure is not reported. -/
theorem store_failure_not_reported :
    env_store_fails.nvs_set_blob = false ∧ env_store_fails.nvs_commit = false ∧
    set_conn_string env_store_fails state_fresh
        (str "HostName=h;DeviceId=d;SharedAccessKey=a2V5") true =
      Outcome.returned (0, state_accepted, log_accepted) ∧
    set_conn_string env_ok state_fresh
        (str "HostName=h;DeviceId=d;SharedAccessKey=a2V5") true =
      Outcome.returned (0, state_accepted, log_accepted) := by
  decide

/-- C16, amended: the outcomes of the store calls (erase, save, commit) have no
influence on `set_conn_string`: for every state, input and `save`, the returned value,
the final state (so the identity installed or cleared in memory) and the effects are
the same whatever the store answers. A store failure is neither reported nor rolled
back. -/
theorem set_conn_string_ignores_store_result (env : Env) (state : srv_state)
    (conn_str : Str) (save : Bool) (erase_ok blob_ok commit_ok : Bool) :
    set_conn_string
        { env with nvs_erase_key := erase_ok, nvs_set_blob := blob_ok, nvs_commit := commit_ok }
        state conn_str save =
      set_conn_string env state conn_str save :=
  rfl

/-! ## The session and the status -/

/-- C17: run any sequence of operations and transport events after `azureiothub_init`,
with every transport event delivered while a session exists. If the state reached has
no session, its status is `Disconnected`. -/
theorem no_session_is_disconnected (env0 : Env) (steps : List (Env × Op))
    (state0 state1 : srv_state) (log0 log : List Effect)
    (hinit : azureiothub_init env0 = Outcome.returned (state0, log0))
    (hev : events_have_session steps state0 = true)
    (hrun : run steps state0 = Outcome.returned (state1, log))
    (hc : state1.client = none) :
    state1.conn_status = JD_AZURE_IOT_HUB_HEALTH_CONNECTION_STATUS_DISCONNECTED := by
  obtain ⟨st, hst, hcl, -, hfacts⟩ := azureiothub_init_facts env0 state0 log0 hinit
  refine run_session_status steps state0 state1 log ?_ hev hrun hc
  intro h0
  rcases hfacts.2.2.2.2 hcl with ⟨-, hs, -⟩ | ⟨hsome, -⟩
  · rw [hs, hst]
  · exact absurd h0 hsome

/-- Witness for C17: a service that is given a rejected string, disconnect, connect and
the empty string has no session and is `Disconnected`. -/
theorem no_session_is_disconnected_witness :
    azureiothub_init env_ok =
      Outcome.returned (state_fresh,
        [Effect.nvs_open (str "jdaziot"), Effect.nvs_get_blob_a 1 (str "conn_str")]) ∧
    events_have_session steps_offline state_fresh = true ∧
    run steps_offline state_fresh =
      Outcome.returned (state_fresh,
        [Effect.nvs_erase_key 1 (str "conn_str"), Effect.nvs_commit 1]) ∧
    state_fresh.client = none ∧
    state_fresh.conn_status = JD_AZURE_IOT_HUB_HEALTH_CONNECTION_STATUS_DISCONNECTED :=
  ⟨by decide, by decide, by decide, rfl,
    no_session_is_disconnected env_ok steps_offline state_fresh state_fresh
      [Effect.nvs_open (str "jdaziot"), Effect.nvs_get_blob_a 1 (str "conn_str")]
      [Effect.nvs_erase_key 1 (str "conn_str"), Effect.nvs_commit 1]
      (by decide) (by decide) (by decide) rfl⟩

/-- C18: in the effects of `azureiothub_init` followed by any sequence of operations and
transport events, `esp_mqtt_client_init` occurs at most once; and once the state holds a
session `c`, every further sequence of operations (clearing the credentials and
disconnect included) leaves the same session `c` in the state and calls
`esp_mqtt_client_init` no more. -/
theorem session_created_once (env0 : Env) (steps : List (Env × Op))
    (state1 : srv_state) (log : List Effect)
    (hrun : boot_and_run env0 steps = Outcome.returned (state1, log)) :
    log.countP is_session_init ≤ 1 ∧
    (∀ c later state2 log2, state1.client = some c →
      run later state1 = Outcome.returned (state2, log2) →
      state2.client = some c ∧ log2.countP is_session_init = 0) := by
  obtain ⟨state0, log0, l, hinit, hrest, hlog⟩ := boot_and_run_inv env0 steps state1 log hrun
  obtain ⟨st, -, hcl, -, hfacts⟩ := azureiothub_init_facts env0 state0 log0 hinit
  refine ⟨?_, fun c later state2 log2 hc h => run_session_kept later state1 state2 log2 c hc h⟩
  rw [hlog, List.countP_append]
  rcases hfacts.2.2.2.2 hcl with ⟨-, -, h0⟩ | ⟨hsome, h1⟩
  · have := run_session_count steps state0 state1 l hrest
    omega
  · cases hc : state0.client with
    | none => exact absurd hc hsome
    | some c =>
      have := (run_session_kept steps state0 state1 l c hc hrest).2
      omega

/-- Witness for C18: in the run of the witness for C13 the session is started once, at
start-up, and survives the new connection string, the clear and the disconnect. -/
theorem session_created_once_witness :
    ∃ state1 log, boot_and_run env_stored steps_session = Outcome.returned (state1, log) ∧
      log.countP is_session_init = 1 ∧ state1.client = some 7 ∧
      log.countP is_session_init ≤ 1 := by
  have hv : (boot_and_run env_stored steps_session).result.map
      (fun r => (r.2.countP is_session_init, r.1.client)) = some (1, some 7) := by
    decide
  cases h : boot_and_run env_stored steps_session with
  | aborted l =>
    rw [h] at hv
    exact absurd hv (by simp [Outcome.result])
  | returned r =>
    obtain ⟨state1, log⟩ := r
    rw [h] at hv
    simp only [Outcome.result, Option.map_some', Option.some.injEq, Prod.mk.injEq] at hv
    exact ⟨state1, log, rfl, hv.1, hv.2,
      (session_created_once env_stored steps_session state1 log h).1⟩

/-- C19: a returning call of `set_conn_string` (any input, result `0` or `-1`),
`azureiothub_reconnect` or `azureiothub_disconnect` leaves the status as it was, or
`Connecting`, or `Disconnecting`. For every operation that changes the status: if the
new status is `Connected` the operation is the connected transport event, and if it is
`Disconnected` the operation is the disconnected transport event. -/
theorem operations_claim_no_outcome (env : Env) (op : Op) (state state1 : srv_state)
    (log : List Effect) (hrun : step env op state = Outcome.returned (state1, log)) :
    ((∀ event_id, op ≠ Op.on_transport_event event_id) →
      (state1.conn_status = state.conn_status ∨
        state1.conn_status = JD_AZURE_IOT_HUB_HEALTH_CONNECTION_STATUS_CONNECTING ∨
        state1.conn_status = JD_AZURE_IOT_HUB_HEALTH_CONNECTION_STATUS_DISCONNECTING)) ∧
    (state1.conn_status ≠ state.conn_status →
      (state1.conn_status = JD_AZURE_IOT_HUB_HEALTH_CONNECTION_STATUS_CONNECTED →
        op = Op.on_transport_event esp_mqtt_event_id_t.MQTT_EVENT_CONNECTED) ∧
      (state1.conn_status = JD_AZURE_IOT_HUB_HEALTH_CONNECTION_STATUS_DISCONNECTED →
        op = Op.on_transport_event esp_mqtt_event_id_t.MQTT_EVENT_DISCONNECTED)) := by
  refine ⟨fun hop => (call_facts_step env op state state1 log hop hrun).2.2.1, ?_⟩
  intro hchg
  by_cases hop : ∀ event_id, op ≠ Op.on_transport_event event_id
  · rcases (call_facts_step env op state state1 log hop hrun).2.2.1 with h | h | h
    · exact absurd h hchg
    · rw [h]
      exact ⟨fun e => absurd e (by decide), fun e => absurd e (by decide)⟩
    · rw [h]
      exact ⟨fun e => absurd e (by decide), fun e => absurd e (by decide)⟩
  · push_neg at hop
    obtain ⟨event_id, rfl⟩ := hop
    simp only [step, Outcome.returned.injEq] at hrun
    obtain ⟨rfl, rfl⟩ : (mqtt_event_handler_cb state event_id).1 = state1 ∧
        (mqtt_event_handler_cb state event_id).2 = log := by
      rw [hrun]
      exact ⟨rfl, rfl⟩
    cases event_id with
    | MQTT_EVENT_CONNECTED =>
      refine ⟨fun _ => rfl, fun e => ?_⟩
      simp only [mqtt_event_handler_cb, set_status_eq] at e
      exact absurd e (by decide)
    | MQTT_EVENT_DISCONNECTED =>
      refine ⟨fun e => ?_, fun _ => rfl⟩
      simp only [mqtt_event_handler_cb, set_status_eq] at e
      exact absurd e (by decide)
    | _ => exact absurd rfl hchg

/-- Witness for C19: connect on a connected state moves the status to `Connecting`. -/
theorem operations_claim_no_outcome_witness :
    ∃ state1 log, step env_ok Op.connect state_online = Outcome.returned (state1, log) ∧
      state1.conn_status = JD_AZURE_IOT_HUB_HEALTH_CONNECTION_STATUS_CONNECTING ∧
      (state1.conn_status = state_online.conn_status ∨
        state1.conn_status = JD_AZURE_IOT_HUB_HEALTH_CONNECTION_STATUS_CONNECTING ∨
        state1.conn_status = JD_AZURE_IOT_HUB_HEALTH_CONNECTION_STATUS_DISCONNECTING) := by
  have hv : (step env_ok Op.connect state_online).result.map (fun r => r.1.conn_status) =
      some JD_AZURE_IOT_HUB_HEALTH_CONNECTION_STATUS_CONNECTING := by
    decide
  cases h : step env_ok Op.connect state_online with
  | aborted l =>
    rw [h] at hv
    exact absurd hv (by simp [Outcome.result])
  | returned r =>
    obtain ⟨state1, log⟩ := r
    rw [h] at hv
    simp only [Outcome.result, Option.map_some', Option.some.injEq] at hv
    exact ⟨state1, log, rfl, hv,
      (operations_claim_no_outcome env_ok Op.connect state_online state1 log h).1
        (fun _ e => Op.noConfusion e)⟩

end AzureIotHub
